import Mathlib

/-!
Shallow embedding of the `mcp_acp` session-management pipeline
(`src/mcp_acp/client.py` and `src/mcp_acp/server.py`).

The external cluster is modelled by a `ClusterState`: the list of
`AgenticSession` resources living in the namespace under consideration,
together with a trace of every `oc` CLI invocation issued so far.  Each
Python coroutine becomes a Lean function threading this state; a raised
Python exception becomes `Except.error`.  Timestamps are kept as the ISO
strings the code manipulates; `datetime.fromisoformat` and
`datetime.utcnow` are abstracted by an environment carrying an arbitrary
parse function into an integer timeline (minutes), which is exact for the
`timedelta` arithmetic of `_parse_time_delta`.
-/

namespace McpAcp

/-- One AgenticSession resource as the code reads it from `oc ... -o json`:
`metadata.name`, `status.phase`, `metadata.creationTimestamp`,
`status.stoppedAt`, `spec.displayName`, `metadata.labels`. -/
structure Session where
  name : String
  phase : Option String := none
  creationTimestamp : Option String := none
  stoppedAt : Option String := none
  displayName : Option String := none
  labels : List (String × String) := []
deriving Repr, DecidableEq

/-- An `oc` CLI invocation, as recorded in the call trace. -/
inductive OcCall where
  | get (resourceType name ns : String)
  | list (resourceType ns : String) (selector : Option String)
  | delete (resourceType name ns : String)
  | patch (resourceType name ns patchBody : String)
  | label (resourceType name ns : String) (labelArgs : List String)
deriving Repr, DecidableEq

/-- A call mutates cluster state unless it is a read (`get`/`list`). -/
def OcCall.isMutating : OcCall → Bool
  | .get _ _ _ => false
  | .list _ _ _ => false
  | _ => true

/-- The external cluster plus the trace of CLI calls issued so far. -/
structure ClusterState where
  sessions : List Session
  trace : List OcCall
deriving Repr, DecidableEq

/-- `ALLOWED_RESOURCE_TYPES = ("agenticsession", "pods", "event")`. -/
def ALLOWED_RESOURCE_TYPES : List String := ["agenticsession", "pods", "event"]

/-- `MAX_BULK_ITEMS = 3`. -/
def MAX_BULK_ITEMS : Nat := 3

/-- `LABEL_PREFIX = "acp.ambient-code.ai/label-"`. -/
def LABEL_PREFIX : String := "acp.ambient-code.ai/label-"

/-- The character class `[a-z0-9]` of the DNS-1123 regex. -/
def isLowerAlnum (c : Char) : Bool :=
  ('a' ≤ c && c ≤ 'z') || ('0' ≤ c && c ≤ '9')

/-- The character class `[-a-z0-9]` of the DNS-1123 regex. -/
def isNameMiddle (c : Char) : Bool :=
  isLowerAlnum c || c = '-'

/-- The regex body `[a-z0-9]([-a-z0-9]*[a-z0-9])?` matched against a whole
character list: first and last characters in `[a-z0-9]`, all characters in
between in `[-a-z0-9]`. -/
def dns1123Body : List Char → Bool
  | [] => false
  | c :: rest =>
    match rest.reverse with
    | [] => isLowerAlnum c
    | d :: mid => isLowerAlnum c && isLowerAlnum d && mid.all isNameMiddle

/-- `re.match(r"^[a-z0-9]([-a-z0-9]*[a-z0-9])?$", value)`: Python\x27s `$`
matches at the end of the string *or just before one trailing newline*, so
the body may match either the whole string or the string minus a single
final `\n` (e.g. `"abc\n"` is accepted by `_validate_input`). -/
def matchesDns1123 (s : String) : Bool :=
  dns1123Body s.data ||
    (match s.data.reverse with
     | c :: rest => c = '\n' && dns1123Body rest.reverse
     | [] => false)

/-- `ACPClient._validate_input` (client.py:81): length check then DNS-1123
regex; a failure is a raised `ValueError`. -/
def validateInput (value fieldName : String) (maxLength : Nat := 253) : Except String Unit :=
  if value.length > maxLength then
    .error (fieldName ++ " exceeds maximum length of " ++ toString maxLength)
  else if !matchesDns1123 value then
    .error (fieldName ++ " contains invalid characters. Must match: ^[a-z0-9]([-a-z0-9]*[a-z0-9])?$")
  else
    .ok ()

/-- The cap-exceeded message raised by `_validate_bulk_operation`. -/
def bulkLimitMsg (operationName : String) (count : Nat) : String :=
  "Bulk " ++ operationName ++ " limited to " ++ toString MAX_BULK_ITEMS ++
    " items for safety. You requested " ++ toString count ++ " items. Split into multiple operations."

/-- `ACPClient._validate_bulk_operation` (client.py:100): raise if more than
`MAX_BULK_ITEMS` targets. -/
def validateBulkOperation (items : List String) (operationName : String) : Except String Unit :=
  if items.length > MAX_BULK_ITEMS then
    .error (bulkLimitMsg operationName items.length)
  else
    .ok ()

/-- The shell metacharacters rejected by `_run_oc_command`:
`; | & $ backtick newline carriage-return`. -/
def suspiciousChar (c : Char) : Bool :=
  c = ';' || c = '|' || c = '&' || c = '$' ||
    c = Char.ofNat 96 || c = '\n' || c = '\r'

/-- An argument is suspicious when it contains any shell metacharacter. -/
def argSuspicious (arg : String) : Bool :=
  arg.data.any suspiciousChar

/-- The metacharacter screen at the top of `_run_oc_command` (client.py:138):
the first suspicious argument raises a `ValueError`. -/
def checkArgs (args : List String) : Except String Unit :=
  match args.find? argSuspicious with
  | some arg => .error ("Argument contains suspicious characters: " ++ arg)
  | none => .ok ()

/-- `next(s for s in cluster if s.name = name)`: how the modelled cluster
resolves `oc get agenticsession name`. -/
def findSession (sessions : List Session) (name : String) : Option Session :=
  sessions.find? (fun s => s.name = name)

/-- Python `str.lower()`: characterwise lowering (a structural model of
`String.toLower`). -/
def pyLower (s : String) : String :=
  ⟨s.data.map Char.toLower⟩

/-- Lexicographic code-point comparison of character lists: the strict
comparison Python uses on strings. -/
def strLtb : List Char → List Char → Bool
  | [], [] => false
  | [], _ :: _ => true
  | _ :: _, [] => false
  | a :: as, b :: bs => if a < b then true else if b < a then false else strLtb as bs

/-- Python `a <= b` on strings, as the `sorted` comparator. -/
def pyStrLe (a b : String) : Bool :=
  !(strLtb b.data a.data)

/-- Structural model of `str.split(sep)` for a one-character separator. -/
def splitOnChar (sep : Char) : List Char → List (List Char)
  | [] => [[]]
  | c :: rest =>
    if c = sep then [] :: splitOnChar sep rest
    else
      match splitOnChar sep rest with
      | part :: parts => (c :: part) :: parts
      | [] => [[c]]

/-- Rendering of a session phase the way Python string-formats it
(`None` prints as `"None"`). -/
def phaseText : Option String → String
  | some p => p
  | none => "None"

/-- Stderr of `oc` for a missing resource (model of the external CLI). -/
def notFoundStderr (resourceType name : String) : String :=
  "Error from server (NotFound): " ++ resourceType ++ " \x22" ++ name ++ "\x22 not found"

/-- Projection of a per-operation result dict onto the keys read by the
bulk aggregators and the claims: `successKeyVal` is the value stored under
the operation-specific key (`"deleted"`, `"stopped"`, `"labeled"`,
`"unlabeled"`), the rest are the `"success"`, `"status"`, `"message"`,
`"session_info"` and `"dry_run"` entries (`none` = key absent). -/
structure SessionInfo where
  name : Option String := none
  status : Option String := none
  created : Option String := none
  stoppedAt : Option String := none
  currentStatus : Option String := none
deriving Repr, DecidableEq

structure OpResult where
  successKeyVal : Option Bool := none
  success : Option Bool := none
  status : Option String := none
  message : Option String := none
  sessionInfo : Option SessionInfo := none
  dryRun : Bool := false
deriving Repr, DecidableEq

/-- `ACPClient._get_resource_json` (client.py:191): whitelist check, name and
namespace validation, then one `oc get`; a nonzero exit becomes a raised
`Exception`. -/
def getResourceJson (resourceType name ns : String) (st : ClusterState) :
    Except String Session × ClusterState :=
  if !(ALLOWED_RESOURCE_TYPES.contains resourceType) then
    (.error ("Resource type \x27" ++ resourceType ++ "\x27 not allowed"), st)
  else
    match validateInput name "resource name" with
    | .error e => (.error e, st)
    | .ok _ =>
      match validateInput ns "namespace" with
      | .error e => (.error e, st)
      | .ok _ =>
        match checkArgs ["get", resourceType, name, "-n", ns, "-o", "json"] with
        | .error e => (.error e, st)
        | .ok _ =>
          let st' := { st with trace := st.trace ++ [OcCall.get resourceType name ns] }
          match findSession st.sessions name with
          | some s => (.ok s, st')
          | none =>
            (.error ("Failed to get " ++ resourceType ++ " \x27" ++ name ++ "\x27: " ++
              notFoundStderr resourceType name), st')

/-- The selector regex character class: alphanumerics and the symbols = , _ . - / -/
def selectorChar (c : Char) : Bool :=
  c.isAlphanum || c = '=' || c = ',' || c = '_' || c = '.' || c = '-' || c = '/'

/-- The selector format regex of `_list_resources_json`: one or more characters, all from `selectorChar`. -/
def selectorFormatOk (sel : String) : Bool :=
  !sel.isEmpty && sel.data.all selectorChar

/-- One `k=v` piece of a label selector (model of the Kubernetes
equality-selector semantics applied by the external cluster). -/
def parseSelectorPart (part : List Char) : String × String :=
  match splitOnChar '=' part with
  | [k, v] => (⟨k⟩, ⟨v⟩)
  | _ => (⟨part⟩, "")

def parseSelector (sel : String) : List (String × String) :=
  (splitOnChar ',' sel.data).map parseSelectorPart

/-- A session matches an equality selector when it carries every `k=v` pair. -/
def matchesSelector (sel : String) (s : Session) : Bool :=
  (parseSelector sel).all (fun kv => s.labels.contains kv)

/-- Python truthiness (`if status:`, `if older_than:`) for an optional
string argument: absent and `""` both read as false. -/
def truthyStr (o : Option String) : Option String :=
  match o with
  | some x => if x.isEmpty then none else some x
  | none => none

/-- `ACPClient._list_resources_json` (client.py:219): whitelist check,
namespace validation, selector-format check, then one `oc get` list call. -/
def listResourcesJson (resourceType ns : String) (selector : Option String) (st : ClusterState) :
    Except String (List Session) × ClusterState :=
  if !(ALLOWED_RESOURCE_TYPES.contains resourceType) then
    (.error ("Resource type \x27" ++ resourceType ++ "\x27 not allowed"), st)
  else
    match validateInput ns "namespace" with
    | .error e => (.error e, st)
    | .ok _ =>
      match truthyStr selector with
      | some sel =>
        if !selectorFormatOk sel then
          (.error ("Invalid label selector format: " ++ sel), st)
        else
          match checkArgs ["get", resourceType, "-n", ns, "-o", "json", "-l", sel] with
          | .error e => (.error e, st)
          | .ok _ =>
            let st' := { st with trace := st.trace ++ [OcCall.list resourceType ns (some sel)] }
            (.ok (st.sessions.filter (matchesSelector sel)), st')
      | none =>
        match checkArgs ["get", resourceType, "-n", ns, "-o", "json"] with
        | .error e => (.error e, st)
        | .ok _ =>
          let st' := { st with trace := st.trace ++ [OcCall.list resourceType ns none] }
          (.ok st.sessions, st')

/-- `ACPClient._validate_session_for_dry_run` (client.py:255): one read-only
lookup; every exception (validation or not-found) is caught and reported as
a non-success dry-run entry. -/
def validateSessionForDryRun (project sess operation : String) (st : ClusterState) :
    OpResult × ClusterState :=
  match getResourceJson "agenticsession" sess project st with
  | (.ok sd, st') =>
    ({ dryRun := true, success := some true,
       message := some ("Would " ++ operation ++ " session \x27" ++ sess ++ "\x27 in project \x27" ++
         project ++ "\x27"),
       sessionInfo := some { name := some sd.name, status := sd.phase,
                             created := sd.creationTimestamp, stoppedAt := sd.stoppedAt } }, st')
  | (.error _, st') =>
    ({ dryRun := true, success := some false,
       message := some ("Session \x27" ++ sess ++ "\x27 not found in project \x27" ++ project ++ "\x27") },
     st')

/-- `ACPClient.delete_session` (client.py:669): dry-run delegates to the
read-only validation; otherwise one `oc delete` with no prior name
validation (only the metacharacter screen of `_run_oc_command`). -/
def delete_session (project sess : String) (dry_run : Bool) (st : ClusterState) :
    Except String OpResult × ClusterState :=
  if dry_run then
    let r := validateSessionForDryRun project sess "delete" st
    (.ok r.1, r.2)
  else
    match checkArgs ["delete", "agenticsession", sess, "-n", project] with
    | .error e => (.error e, st)
    | .ok _ =>
      let st' := { st with trace := st.trace ++ [OcCall.delete "agenticsession" sess project] }
      match findSession st.sessions sess with
      | some _ =>
        (.ok { successKeyVal := some true,
               message := some ("Successfully deleted session \x27" ++ sess ++ "\x27 from project \x27" ++
                 project ++ "\x27") },
         { st' with sessions := st'.sessions.filter (fun r => r.name ≠ sess) })
      | none =>
        (.ok { successKeyVal := some false,
               message := some ("Failed to delete session: " ++ notFoundStderr "agenticsession" sess) },
         st')

/-- `json.dumps({"spec": {"stopped": False}})`. -/
def restartPatchBody : String :=
  "\x7b\x22spec\x22: \x7b\x22stopped\x22: false\x7d\x7d"

/-- `json.dumps({"spec": {"stopped": True}})`. -/
def stopPatchBody : String :=
  "\x7b\x22spec\x22: \x7b\x22stopped\x22: true\x7d\x7d"

/-- `ACPClient.restart_session` (client.py:696): fetch (validating), then
either a dry-run preview or an `oc patch`; the whole body is wrapped in
`try/except`, so every failure becomes a `status="error"` result. -/
def restart_session (project sess : String) (dry_run : Bool) (st : ClusterState) :
    OpResult × ClusterState :=
  match getResourceJson "agenticsession" sess project st with
  | (.error e, st') => ({ status := some "error", message := some e }, st')
  | (.ok sd, st') =>
    let currentStatus := sd.phase.getD "unknown"
    if dry_run then
      ({ status := some currentStatus, dryRun := true, success := some true,
         message := some ("Would restart session \x27" ++ sess ++ "\x27 (current status: " ++
           currentStatus ++ ")"),
         sessionInfo := some { name := some sd.name, currentStatus := some currentStatus,
                               stoppedAt := sd.stoppedAt } }, st')
    else
      match checkArgs ["patch", "agenticsession", sess, "-n", project, "--type=merge", "-p",
          restartPatchBody] with
      | .error e => ({ status := some "error", message := some e }, st')
      | .ok _ =>
        let st2 := { st' with trace := st'.trace ++
          [OcCall.patch "agenticsession" sess project restartPatchBody] }
        if (findSession st'.sessions sess).isSome then
          ({ status := some "restarting",
             message := some ("Successfully restarted session \x27" ++ sess ++ "\x27 in project \x27" ++
               project ++ "\x27") }, st2)
        else
          ({ status := some "error",
             message := some ("Failed to restart session: " ++ notFoundStderr "agenticsession" sess) },
           st2)

/-- The local `stop_session` helper inside `bulk_stop_sessions`
(client.py:777): fetch, then dry-run preview keyed on `phase == "running"`,
or an `oc patch`; all exceptions are caught. -/
def stop_session (project sess : String) (dry_run : Bool) (st : ClusterState) :
    OpResult × ClusterState :=
  match getResourceJson "agenticsession" sess project st with
  | (.error e, st') =>
    ({ successKeyVal := some false, success := some false, message := some e }, st')
  | (.ok sd, st') =>
    if dry_run then
      ({ dryRun := true, success := some (sd.phase = some "running"),
         message := some ("Session status: " ++ phaseText sd.phase),
         sessionInfo := some { name := some sess, status := sd.phase } }, st')
    else
      match checkArgs ["patch", "agenticsession", sess, "-n", project, "--type=merge", "-p",
          stopPatchBody] with
      | .error e =>
        ({ successKeyVal := some false, success := some false, message := some e }, st')
      | .ok _ =>
        let st2 := { st' with trace := st'.trace ++
          [OcCall.patch "agenticsession" sess project stopPatchBody] }
        if (findSession st'.sessions sess).isSome then
          ({ successKeyVal := some true, message := some "Success" }, st2)
        else
          ({ successKeyVal := some false,
             message := some (notFoundStderr "agenticsession" sess) }, st2)

/-- `str.replace(ch, "")` for each listed character. -/
def stripChars (s : String) (cs : List Char) : List Char :=
  s.data.filter (fun c => !(cs.contains c))

/-- Python `str.isalnum()`: nonempty and all alphanumeric. -/
def pyIsAlnum (l : List Char) : Bool :=
  !l.isEmpty && l.all Char.isAlphanum

/-- The per-item label validation of `label_resource` (client.py:371):
key check, value check, then the 63-character bound, first failure wins. -/
def checkLabelItem (kv : String × String) : Except String Unit :=
  if !pyIsAlnum (stripChars kv.1 ['-', '_']) then
    .error ("Invalid label key: " ++ kv.1)
  else if !pyIsAlnum (stripChars kv.2 ['-', '_', '.']) then
    .error ("Invalid label value: " ++ kv.2)
  else if kv.1.length > 63 || kv.2.length > 63 then
    .error "Label key/value must be ≤63 characters"
  else
    .ok ()

def checkLabels : List (String × String) → Except String Unit
  | [] => .ok ()
  | kv :: rest =>
    match checkLabelItem kv with
    | .error e => .error e
    | .ok _ => checkLabels rest

/-- `{LABEL_PREFIX}{key}: value` prefixing of user labels. -/
def k8sLabels (labels : List (String × String)) : List (String × String) :=
  labels.map (fun kv => (LABEL_PREFIX ++ kv.1, kv.2))

/-- `oc label --overwrite` semantics on the modelled label map. -/
def overwriteLabels (base newLabels : List (String × String)) : List (String × String) :=
  base.filter (fun kv => !(newLabels.any (fun nv => nv.1 = kv.1))) ++ newLabels

/-- `ACPClient.label_resource` (client.py:345). -/
def label_resource (resource_type name project : String) (labels : List (String × String))
    (dry_run : Bool) (st : ClusterState) : Except String OpResult × ClusterState :=
  if !(ALLOWED_RESOURCE_TYPES.contains resource_type) then
    (.error ("Resource type \x27" ++ resource_type ++ "\x27 not allowed"), st)
  else
    match checkLabels labels with
    | .error e => (.error e, st)
    | .ok _ =>
      if dry_run then
        (.ok { dryRun := true,
               message := some ("Would label " ++ resource_type ++ " \x27" ++ name ++ "\x27") }, st)
      else
        let labelArgs := (k8sLabels labels).map (fun kv => kv.1 ++ "=" ++ kv.2)
        match checkArgs (["label", resource_type, name, "-n", project, "--overwrite"] ++ labelArgs) with
        | .error e => (.error e, st)
        | .ok _ =>
          let st' := { st with trace := st.trace ++ [OcCall.label resource_type name project labelArgs] }
          if (findSession st.sessions name).isSome then
            (.ok { successKeyVal := some true },
             { st' with sessions := st'.sessions.map (fun r =>
                 if r.name = name then { r with labels := overwriteLabels r.labels (k8sLabels labels) }
                 else r) })
          else
            (.ok { successKeyVal := some false,
                   message := some (notFoundStderr resource_type name) }, st')

/-- `ACPClient.unlabel_resource` (client.py:400): no per-key validation,
prefix then `oc label key-`. -/
def unlabel_resource (resource_type name project : String) (label_keys : List String)
    (dry_run : Bool) (st : ClusterState) : Except String OpResult × ClusterState :=
  if !(ALLOWED_RESOURCE_TYPES.contains resource_type) then
    (.error ("Resource type \x27" ++ resource_type ++ "\x27 not allowed"), st)
  else
    let prefixedKeys := label_keys.map (fun k => LABEL_PREFIX ++ k)
    if dry_run then
      (.ok { dryRun := true,
             message := some ("Would remove labels from " ++ resource_type ++ " \x27" ++ name ++ "\x27") },
       st)
    else
      let labelArgs := prefixedKeys.map (fun k => k ++ "-")
      match checkArgs (["label", resource_type, name, "-n", project] ++ labelArgs) with
      | .error e => (.error e, st)
      | .ok _ =>
        let st' := { st with trace := st.trace ++ [OcCall.label resource_type name project labelArgs] }
        if (findSession st.sessions name).isSome then
          (.ok { successKeyVal := some true },
           { st' with sessions := st'.sessions.map (fun r =>
               if r.name = name then
                 { r with labels := r.labels.filter (fun kv => !(prefixedKeys.contains kv.1)) }
               else r) })
        else
          (.ok { successKeyVal := some false,
                 message := some (notFoundStderr resource_type name) }, st')

/-- One aggregated `would_execute` preview entry of `_bulk_operation`. -/
structure DryRunEntry where
  session : String
  info : Option SessionInfo
deriving Repr, DecidableEq

/-- One aggregated `skipped` entry of `_bulk_operation`. -/
structure SkippedEntry where
  session : String
  reason : Option String
deriving Repr, DecidableEq

/-- One aggregated failure entry (`{"session"/"resource": name, "error": msg}`). -/
structure FailedEntry where
  session : String
  error : Option String
deriving Repr, DecidableEq

/-- The response of `_bulk_operation`: the list under the operation-specific
success key, the `failed` list, and (in dry-run mode only) the `dry_run`
flag plus the `would_execute`/`skipped` preview lists. -/
structure BulkResponse where
  success : List String
  failed : List FailedEntry
  dryRun : Bool := false
  wouldExecute : List DryRunEntry := []
  skipped : List SkippedEntry := []
deriving Repr, DecidableEq

/-- `result.get(success_key, result.get("success"))` truthiness. -/
def normalSuccess (r : OpResult) : Bool :=
  match r.successKeyVal with
  | some b => b
  | none => r.success.getD false

/-- The per-target loop of `_bulk_operation` (client.py:314); a raised
exception from the operation aborts the remainder of the batch. -/
def bulkLoop (opFn : String → Bool → ClusterState → Except String OpResult × ClusterState)
    (sessions : List String) (dry_run : Bool)
    (succ : List String) (failed : List FailedEntry)
    (wouldExec : List DryRunEntry) (skipped : List SkippedEntry)
    (st : ClusterState) : Except String BulkResponse × ClusterState :=
  match sessions with
  | [] =>
    (.ok { success := succ, failed := failed, dryRun := dry_run,
           wouldExecute := wouldExec, skipped := skipped }, st)
  | sess :: rest =>
    match opFn sess dry_run st with
    | (.error e, st') => (.error e, st')
    | (.ok r, st') =>
      if dry_run then
        if r.success.getD true then
          bulkLoop opFn rest dry_run succ failed
            (wouldExec ++ [{ session := sess, info := r.sessionInfo }]) skipped st'
        else
          bulkLoop opFn rest dry_run succ failed wouldExec
            (skipped ++ [{ session := sess, reason := r.message }]) st'
      else
        if normalSuccess r then
          bulkLoop opFn rest dry_run (succ ++ [sess]) failed wouldExec skipped st'
        else
          bulkLoop opFn rest dry_run succ
            (failed ++ [{ session := sess, error := r.message }]) wouldExec skipped st'

/-- `ACPClient._bulk_operation` (client.py:287): the 3-item cap first, then
the sequential per-target loop. -/
def bulkOperation (opFn : String → Bool → ClusterState → Except String OpResult × ClusterState)
    (sessions : List String) (success_key : String) (dry_run : Bool) (st : ClusterState) :
    Except String BulkResponse × ClusterState :=
  match validateBulkOperation sessions success_key with
  | .error e => (.error e, st)
  | .ok _ => bulkLoop opFn sessions dry_run [] [] [] [] st

/-- `ACPClient.bulk_delete_sessions` (client.py:752). -/
def bulk_delete_sessions (project : String) (sessions : List String) (dry_run : Bool)
    (st : ClusterState) : Except String BulkResponse × ClusterState :=
  bulkOperation (fun sess d stx => delete_session project sess d stx) sessions "deleted" dry_run st

/-- `ACPClient.bulk_stop_sessions` (client.py:765); `stop_session` catches
all exceptions, so the lifted operation never raises. -/
def bulk_stop_sessions (project : String) (sessions : List String) (dry_run : Bool)
    (st : ClusterState) : Except String BulkResponse × ClusterState :=
  bulkOperation
    (fun sess d stx =>
      match stop_session project sess d stx with
      | (r, st') => (.ok r, st'))
    sessions "stopped" dry_run st

/-- The `{restarted/labeled/unlabeled: [...], failed: [...], dry_run: b}`
response shape of the hand-rolled bulk loops. -/
structure SimpleBulkResponse where
  success : List String
  failed : List FailedEntry
  dryRun : Bool
deriving Repr, DecidableEq

/-- `result.get("status") == "restarting" or result.get("success")`. -/
def restartSuccess (r : OpResult) : Bool :=
  r.status = some "restarting" || r.success.getD false

/-- The per-target loop of `bulk_restart_sessions` (client.py:838). -/
def bulkRestartLoop (project : String) (sessions : List String) (dry_run : Bool)
    (succ : List String) (failed : List FailedEntry) (st : ClusterState) :
    SimpleBulkResponse × ClusterState :=
  match sessions with
  | [] => ({ success := succ, failed := failed, dryRun := dry_run }, st)
  | sess :: rest =>
    match restart_session project sess dry_run st with
    | (r, st') =>
      if restartSuccess r then
        bulkRestartLoop project rest dry_run (succ ++ [sess]) failed st'
      else
        bulkRestartLoop project rest dry_run succ
          (failed ++ [{ session := sess, error := r.message }]) st'

/-- `ACPClient.bulk_restart_sessions` (client.py:821). -/
def bulk_restart_sessions (project : String) (sessions : List String) (dry_run : Bool)
    (st : ClusterState) : Except String SimpleBulkResponse × ClusterState :=
  match validateBulkOperation sessions "restart" with
  | .error e => (.error e, st)
  | .ok _ =>
    match bulkRestartLoop project sessions dry_run [] [] st with
    | (r, st') => (.ok r, st')

/-- The per-target loop of `bulk_label_resources` (client.py:470); a raised
validation error from `label_resource` aborts the batch. -/
def bulkLabelLoop (resource_type project : String) (labels : List (String × String))
    (dry_run : Bool) (names : List String) (succ : List String) (failed : List FailedEntry)
    (st : ClusterState) : Except String SimpleBulkResponse × ClusterState :=
  match names with
  | [] => (.ok { success := succ, failed := failed, dryRun := dry_run }, st)
  | name :: rest =>
    match label_resource resource_type name project labels dry_run st with
    | (.error e, st') => (.error e, st')
    | (.ok r, st') =>
      if normalSuccess r then
        bulkLabelLoop resource_type project labels dry_run rest (succ ++ [name]) failed st'
      else
        bulkLabelLoop resource_type project labels dry_run rest succ
          (failed ++ [{ session := name, error := r.message }]) st'

/-- `ACPClient.bulk_label_resources` (client.py:444). -/
def bulk_label_resources (resource_type : String) (names : List String) (project : String)
    (labels : List (String × String)) (dry_run : Bool) (st : ClusterState) :
    Except String SimpleBulkResponse × ClusterState :=
  match validateBulkOperation names "label" with
  | .error e => (.error e, st)
  | .ok _ => bulkLabelLoop resource_type project labels dry_run names [] [] st

/-- The per-target loop of `bulk_unlabel_resources` (client.py:509). -/
def bulkUnlabelLoop (resource_type project : String) (label_keys : List String)
    (dry_run : Bool) (names : List String) (succ : List String) (failed : List FailedEntry)
    (st : ClusterState) : Except String SimpleBulkResponse × ClusterState :=
  match names with
  | [] => (.ok { success := succ, failed := failed, dryRun := dry_run }, st)
  | name :: rest =>
    match unlabel_resource resource_type name project label_keys dry_run st with
    | (.error e, st') => (.error e, st')
    | (.ok r, st') =>
      if normalSuccess r then
        bulkUnlabelLoop resource_type project label_keys dry_run rest (succ ++ [name]) failed st'
      else
        bulkUnlabelLoop resource_type project label_keys dry_run rest succ
          (failed ++ [{ session := name, error := r.message }]) st'

/-- `ACPClient.bulk_unlabel_resources` (client.py:483). -/
def bulk_unlabel_resources (resource_type : String) (names : List String) (project : String)
    (label_keys : List String) (dry_run : Bool) (st : ClusterState) :
    Except String SimpleBulkResponse × ClusterState :=
  match validateBulkOperation names "unlabel" with
  | .error e => (.error e, st)
  | .ok _ => bulkUnlabelLoop resource_type project label_keys dry_run names [] [] st

/-- The external time facilities of the code: `datetime.utcnow()` as an
integer minute timeline, and `datetime.fromisoformat` as an arbitrary
parse function into that timeline. -/
structure Env where
  now : Int
  parseIso : String → Int

/-- The `[dhm]` unit class of `_parse_time_delta`. -/
def timeUnitChar (c : Char) : Bool :=
  c = 'd' || c = 'h' || c = 'm'

/-- `int(match.group(1))` on the matched digit run. -/
def digitsToNat (l : List Char) : Nat :=
  l.foldl (fun acc c => acc * 10 + (c.toNat - '0'.toNat)) 0

def invalidTimeMsg (time_str : String) : String :=
  "Invalid time format: " ++ time_str ++ ". Use format like \x277d\x27, \x2724h\x27, \x2730m\x27"

/-- `timedelta(days/hours/minutes=value)` in minutes. -/
def unitMinutes (c : Char) (value : Nat) : Int :=
  if c = 'd' then (value : Int) * 1440
  else if c = 'h' then (value : Int) * 60
  else (value : Int)

/-- `ACPClient._parse_time_delta` (client.py:627):
`re.match(r"(\d+)([dhm])", time_str.lower())` is a *prefix* match — one or
more digits then one unit character, trailing characters ignored — and the
result is the cutoff `utcnow() - timedelta(...)`. -/
def parseTimeDelta (time_str : String) (now : Int) : Except String Int :=
  let s := pyLower time_str
  let digits := s.data.takeWhile Char.isDigit
  let rest := s.data.dropWhile Char.isDigit
  match digits, rest with
  | [], _ => .error (invalidTimeMsg time_str)
  | _ :: _, [] => .error (invalidTimeMsg time_str)
  | ds, c :: _ =>
    if timeUnitChar c then .ok (now - unitMinutes c (digitsToNat ds))
    else .error (invalidTimeMsg time_str)

/-- `ACPClient._is_older_than` (client.py:652): a missing or empty timestamp
never passes; otherwise strict `<` of the parsed timestamp against the cutoff. -/
def isOlderThan (parseIso : String → Int) (timestamp : Option String) (cutoff : Int) : Bool :=
  match timestamp with
  | none => false
  | some ts => if ts.isEmpty then false else decide (parseIso ts < cutoff)

/-- `s.get("metadata", {}).get("creationTimestamp", "")` as a sort key. -/
def createdKey (s : Session) : String := s.creationTimestamp.getD ""

/-- `s.get("status", {}).get("stoppedAt", "")` as a sort key. -/
def stoppedKey (s : Session) : String := s.stoppedAt.getD ""

/-- `s.get("metadata", {}).get("name", "")` as a sort key. -/
def nameKey (s : Session) : String := s.name

/-- `ACPClient._sort_sessions` (client.py:606):
`sorted(sessions, key=key_fn, reverse=(sort_by != "name"))` — a stable sort,
descending for `created`/`stopped`, ascending for `name`; any other key
returns the input unchanged. -/
def sortSessions (sessions : List Session) (sort_by : String) : List Session :=
  if sort_by = "created" then
    sessions.mergeSort (fun a b => pyStrLe (createdKey b) (createdKey a))
  else if sort_by = "stopped" then
    sessions.mergeSort (fun a b => pyStrLe (stoppedKey b) (stoppedKey a))
  else if sort_by = "name" then
    sessions.mergeSort (fun a b => pyStrLe (nameKey a) (nameKey b))
  else
    sessions

/-- The status predicate of `list_sessions`: case-insensitive equality with
`status.phase` (missing phase reads as `""`). -/
def statusFilter (status : String) (s : Session) : Bool :=
  pyLower (s.phase.getD "") = pyLower status

/-- The display-name predicate: truthiness of `spec.displayName` equals the
requested flag. -/
def displayNameFilter (want : Bool) (s : Session) : Bool :=
  (match s.displayName with
   | none => false
   | some d => !d.isEmpty) = want

/-- The `{sessions, total, filters_applied}` response of `list_sessions`
(`filters_applied` values rendered to strings). -/
structure ListResponse where
  sessions : List Session
  total : Nat
  filtersApplied : List (String × String)
deriving Repr, DecidableEq

def filtersAppliedList (statusT : Option String) (has_display_name : Option Bool)
    (olderT : Option String) (sort_by : Option String) (limit : Option Int) :
    List (String × String) :=
  (match statusT with
   | some x => [("status", x)]
   | none => []) ++
  (match has_display_name with
   | some b => [("has_display_name", toString b)]
   | none => []) ++
  (match olderT with
   | some x => [("older_than", x)]
   | none => []) ++
  (match sort_by with
   | some sb => if sb.isEmpty then [] else [("sort_by", sb)]
   | none => []) ++
  (match limit with
   | some n => if n ≠ 0 && decide (0 < n) then [("limit", toString n)] else []
   | none => [])

/-- The cutoff computed while building the filter list: present only when
`older_than` is truthy, and a raised `ValueError` for a malformed string. -/
def cutoffOf (env : Env) (older_than : Option String) : Except String (Option Int) :=
  match truthyStr older_than with
  | some ot => (parseTimeDelta ot env.now).map some
  | none => .ok none

/-- The conjunction of the filter predicates built by `list_sessions`
(client.py:549): a record passes only if it satisfies every supplied one. -/
def keepSession (env : Env) (statusT : Option String) (has_display_name : Option Bool)
    (cutoff? : Option Int) (s : Session) : Bool :=
  (match statusT with
   | some stat => statusFilter stat s
   | none => true) &&
  (match has_display_name with
   | some w => displayNameFilter w s
   | none => true) &&
  (match cutoff? with
   | some cutoff => isOlderThan env.parseIso s.creationTimestamp cutoff
   | none => true)

/-- `if sort_by: filtered = self._sort_sessions(filtered, sort_by)`. -/
def applySort (filtered : List Session) (sort_by : Option String) : List Session :=
  match sort_by with
  | some sb => if sb.isEmpty then filtered else sortSessions filtered sb
  | none => filtered

/-- `if limit and limit > 0: filtered = filtered[:limit]` — the truthiness
of `limit` conjoined with `limit > 0` is exactly `0 < limit`. -/
def applyLimit (l : List Session) (limit : Option Int) : List Session :=
  match limit with
  | some n => if n ≠ 0 && decide (0 < n) then l.take n.toNat else l
  | none => l

/-- The post-fetch body of `list_sessions`: build filters (raising on a
malformed `older_than`), single-pass conjunctive filter, sort, limit;
`total` is the length of the final list. -/
def processSessions (env : Env) (sessions : List Session) (status : Option String)
    (has_display_name : Option Bool) (older_than sort_by : Option String)
    (limit : Option Int) : Except String ListResponse :=
  match cutoffOf env older_than with
  | .error e => .error e
  | .ok cutoff? =>
    let filtered := sessions.filter (keepSession env (truthyStr status) has_display_name cutoff?)
    .ok { sessions := applyLimit (applySort filtered sort_by) limit,
          total := (applyLimit (applySort filtered sort_by) limit).length,
          filtersApplied :=
            filtersAppliedList (truthyStr status) has_display_name (truthyStr older_than)
              sort_by limit }

/-- `ACPClient.list_sessions` (client.py:522): one list call, then the pure
filter/sort/limit pipeline; a malformed `older_than` raises after the fetch,
before filtering. -/
def list_sessions (env : Env) (project : String) (status : Option String)
    (has_display_name : Option Bool) (older_than sort_by : Option String)
    (limit : Option Int) (label_selector : Option String) (st : ClusterState) :
    Except String ListResponse × ClusterState :=
  match listResourcesJson "agenticsession" project label_selector st with
  | (.error e, st') => (.error e, st')
  | (.ok sessions, st') =>
    match processSessions env sessions status has_display_name older_than sort_by limit with
    | .error e => (.error e, st')
    | .ok resp => (.ok resp, st')

/-- The selector string built by `list_sessions_by_user_labels`
(client.py:601): `LABEL_PREFIX` applied to every key, parts joined by `,`. -/
def buildUserSelector (labels : List (String × String)) : String :=
  String.intercalate "," (labels.map (fun kv => LABEL_PREFIX ++ kv.1 ++ "=" ++ kv.2))

/-- `ACPClient.list_sessions_by_user_labels` (client.py:584) with no extra
keyword arguments (how the bulk by-label operations call it). -/
def list_sessions_by_user_labels (env : Env) (project : String)
    (labels : List (String × String)) (st : ClusterState) :
    Except String ListResponse × ClusterState :=
  list_sessions env project none none none none none (some (buildUserSelector labels)) st

/-- The three response shapes of the by-label bulk operations: the
no-match early return, the dry-run preview, or the delegated bulk result. -/
inductive ByLabelResult (α : Type) where
  | empty (message : String)
  | preview (matched : List String) (count : Nat) (selector : String) (message : String)
  | executed (r : α)
deriving Repr, DecidableEq

/-- Rendering of the Python dict in `f"No sessions found with labels {labels}"`. -/
def labelsText (labels : List (String × String)) : String :=
  String.intercalate ", " (labels.map (fun kv => kv.1 ++ "=" ++ kv.2))

/-- The over-cap message of the by-label bulk operations (client.py:882). -/
def overCapMsg (n : Nat) : String :=
  "Label selector matches " ++ toString n ++ " sessions. Max " ++ toString MAX_BULK_ITEMS ++
    " allowed. Refine your labels to be more specific."

/-- `ACPClient.bulk_delete_sessions_by_label` (client.py:851): resolve the
selector by a list call, early-return on no match, enforce the cap against
the resolved count, preview on dry-run, else delegate to
`bulk_delete_sessions`. -/
def bulk_delete_sessions_by_label (env : Env) (project : String)
    (labels : List (String × String)) (dry_run : Bool) (st : ClusterState) :
    Except String (ByLabelResult BulkResponse) × ClusterState :=
  match list_sessions_by_user_labels env project labels st with
  | (.error e, st') => (.error e, st')
  | (.ok r, st') =>
    if r.sessions.isEmpty then
      (.ok (.empty ("No sessions found with labels " ++ labelsText labels)), st')
    else
      let session_names := r.sessions.map (fun s => s.name)
      if session_names.length > MAX_BULK_ITEMS then
        (.error (overCapMsg session_names.length), st')
      else if dry_run then
        (.ok (.preview session_names session_names.length (buildUserSelector labels)
          ("Would delete " ++ toString session_names.length ++
            " sessions. Review matched_sessions before confirming.")), st')
      else
        match bulk_delete_sessions project session_names dry_run st' with
        | (.error e, st2) => (.error e, st2)
        | (.ok br, st2) => (.ok (.executed br), st2)

/-- `ACPClient.bulk_stop_sessions_by_label` (client.py:900). -/
def bulk_stop_sessions_by_label (env : Env) (project : String)
    (labels : List (String × String)) (dry_run : Bool) (st : ClusterState) :
    Except String (ByLabelResult BulkResponse) × ClusterState :=
  match list_sessions_by_user_labels env project labels st with
  | (.error e, st') => (.error e, st')
  | (.ok r, st') =>
    if r.sessions.isEmpty then
      (.ok (.empty ("No sessions found with labels " ++ labelsText labels)), st')
    else
      let session_names := r.sessions.map (fun s => s.name)
      if session_names.length > MAX_BULK_ITEMS then
        (.error (overCapMsg session_names.length), st')
      else if dry_run then
        (.ok (.preview session_names session_names.length (buildUserSelector labels)
          ("Would stop " ++ toString session_names.length ++
            " sessions. Review matched_sessions before confirming.")), st')
      else
        match bulk_stop_sessions project session_names dry_run st' with
        | (.error e, st2) => (.error e, st2)
        | (.ok br, st2) => (.ok (.executed br), st2)

/-- `ACPClient.bulk_restart_sessions_by_label` (client.py:949). -/
def bulk_restart_sessions_by_label (env : Env) (project : String)
    (labels : List (String × String)) (dry_run : Bool) (st : ClusterState) :
    Except String (ByLabelResult SimpleBulkResponse) × ClusterState :=
  match list_sessions_by_user_labels env project labels st with
  | (.error e, st') => (.error e, st')
  | (.ok r, st') =>
    if r.sessions.isEmpty then
      (.ok (.empty ("No sessions found with labels " ++ labelsText labels)), st')
    else
      let session_names := r.sessions.map (fun s => s.name)
      if session_names.length > MAX_BULK_ITEMS then
        (.error (overCapMsg session_names.length), st')
      else if dry_run then
        (.ok (.preview session_names session_names.length (buildUserSelector labels)
          ("Would restart " ++ toString session_names.length ++
            " sessions. Review matched_sessions before confirming.")), st')
      else
        match bulk_restart_sessions project session_names dry_run st' with
        | (.error e, st2) => (.error e, st2)
        | (.ok br, st2) => (.ok (.executed br), st2)

/-- Python truthiness of `args.get(key)` for an optional boolean argument:
an absent key reads as `False`. -/
def optTruthy (o : Option Bool) : Bool := o.getD false

/-- The gate error of `_check_confirmation_then_execute` (server.py:165). -/
def confirmationMsg (operation : String) : String :=
  "Bulk " ++ operation ++ " requires explicit confirmation.\nAdd confirm=true to proceed."

/-- `_check_confirmation_then_execute` (server.py:150): the confirmation
gate enforced at the server layer — the wrapped client function runs only
when `dry_run` or `confirm` is truthy. -/
def checkConfirmationThenExecute {β : Type} (fn : ClusterState → Except String β × ClusterState)
    (dry_run confirm : Option Bool) (operation : String) (st : ClusterState) :
    Except String β × ClusterState :=
  if !optTruthy dry_run && !optTruthy confirm then
    (.error (confirmationMsg operation), st)
  else
    fn st

/-- `bulk_delete_wrapper` from `create_bulk_wrappers` (server.py:625). -/
def bulk_delete_wrapper (project : String) (sessions : List String)
    (dry_run confirm : Option Bool) (st : ClusterState) :
    Except String BulkResponse × ClusterState :=
  checkConfirmationThenExecute (bulk_delete_sessions project sessions (optTruthy dry_run))
    dry_run confirm "delete" st

/-- `bulk_stop_wrapper` (server.py:628). -/
def bulk_stop_wrapper (project : String) (sessions : List String)
    (dry_run confirm : Option Bool) (st : ClusterState) :
    Except String BulkResponse × ClusterState :=
  checkConfirmationThenExecute (bulk_stop_sessions project sessions (optTruthy dry_run))
    dry_run confirm "stop" st

/-- `bulk_restart_wrapper` (server.py:637). -/
def bulk_restart_wrapper (project : String) (sessions : List String)
    (dry_run confirm : Option Bool) (st : ClusterState) :
    Except String SimpleBulkResponse × ClusterState :=
  checkConfirmationThenExecute (bulk_restart_sessions project sessions (optTruthy dry_run))
    dry_run confirm "restart" st

/-- `bulk_delete_by_label_wrapper` (server.py:631). -/
def bulk_delete_by_label_wrapper (env : Env) (project : String)
    (labels : List (String × String)) (dry_run confirm : Option Bool) (st : ClusterState) :
    Except String (ByLabelResult BulkResponse) × ClusterState :=
  checkConfirmationThenExecute (bulk_delete_sessions_by_label env project labels (optTruthy dry_run))
    dry_run confirm "delete" st

/-- `bulk_stop_by_label_wrapper` (server.py:634). -/
def bulk_stop_by_label_wrapper (env : Env) (project : String)
    (labels : List (String × String)) (dry_run confirm : Option Bool) (st : ClusterState) :
    Except String (ByLabelResult BulkResponse) × ClusterState :=
  checkConfirmationThenExecute (bulk_stop_sessions_by_label env project labels (optTruthy dry_run))
    dry_run confirm "stop" st

/-- `bulk_restart_by_label_wrapper` (server.py:640). -/
def bulk_restart_by_label_wrapper (env : Env) (project : String)
    (labels : List (String × String)) (dry_run confirm : Option Bool) (st : ClusterState) :
    Except String (ByLabelResult SimpleBulkResponse) × ClusterState :=
  checkConfirmationThenExecute (bulk_restart_sessions_by_label env project labels (optTruthy dry_run))
    dry_run confirm "restart" st

/-- The `acp_bulk_label_resources` dispatch lambda (server.py:708). -/
def bulk_label_wrapper (resource_type : String) (names : List String) (project : String)
    (labels : List (String × String)) (dry_run confirm : Option Bool) (st : ClusterState) :
    Except String SimpleBulkResponse × ClusterState :=
  checkConfirmationThenExecute
    (bulk_label_resources resource_type names project labels (optTruthy dry_run))
    dry_run confirm "label" st

/-- The `acp_bulk_unlabel_resources` dispatch lambda (server.py:712). -/
def bulk_unlabel_wrapper (resource_type : String) (names : List String) (project : String)
    (label_keys : List String) (dry_run confirm : Option Bool) (st : ClusterState) :
    Except String SimpleBulkResponse × ClusterState :=
  checkConfirmationThenExecute
    (bulk_unlabel_resources resource_type names project label_keys (optTruthy dry_run))
    dry_run confirm "unlabel" st

/-! ### Concrete fixtures used by witnesses and counterexamples -/

def envW : Env := { now := 0, parseIso := fun _ => 0 }

def sessA : Session :=
  { name := "a-sess", phase := some "Running",
    creationTimestamp := some "2024-01-01T00:00:00Z",
    labels := [(LABEL_PREFIX ++ "env", "prod")] }

def sessB : Session :=
  { name := "b-sess", phase := some "Stopped",
    creationTimestamp := some "2024-06-01T00:00:00Z",
    stoppedAt := some "2024-06-02T00:00:00Z" }

def stW : ClusterState := { sessions := [sessA, sessB], trace := [] }

/-! ### C1 — the server-side confirmation gate -/

/-- C1: for every destructive bulk tool invocation (bulk delete/stop/restart/
label/unlabel, by name or by label) whose arguments have `dry_run` unset or
false and `confirm` unset or false, the server raises the
"requires confirmation / add confirm=true" validation error and the wrapped
client bulk function is never invoked — the cluster state (hence the call
trace) is returned unchanged, for an arbitrary wrapped function. -/
theorem confirmation_gate_blocks_unconfirmed_bulk
    (env : Env) (project resource_type : String) (sessions names label_keys : List String)
    (labels : List (String × String)) (dry_run confirm : Option Bool) (st : ClusterState)
    (hd : optTruthy dry_run = false) (hc : optTruthy confirm = false) :
    (∀ (β : Type) (fn : ClusterState → Except String β × ClusterState) (operation : String),
      checkConfirmationThenExecute fn dry_run confirm operation st =
        (.error (confirmationMsg operation), st)) ∧
    bulk_delete_wrapper project sessions dry_run confirm st =
      (.error (confirmationMsg "delete"), st) ∧
    bulk_stop_wrapper project sessions dry_run confirm st =
      (.error (confirmationMsg "stop"), st) ∧
    bulk_restart_wrapper project sessions dry_run confirm st =
      (.error (confirmationMsg "restart"), st) ∧
    bulk_delete_by_label_wrapper env project labels dry_run confirm st =
      (.error (confirmationMsg "delete"), st) ∧
    bulk_stop_by_label_wrapper env project labels dry_run confirm st =
      (.error (confirmationMsg "stop"), st) ∧
    bulk_restart_by_label_wrapper env project labels dry_run confirm st =
      (.error (confirmationMsg "restart"), st) ∧
    bulk_label_wrapper resource_type names project labels dry_run confirm st =
      (.error (confirmationMsg "label"), st) ∧
    bulk_unlabel_wrapper resource_type names project label_keys dry_run confirm st =
      (.error (confirmationMsg "unlabel"), st) := by
  refine ⟨fun β fn operation => ?_, ?_, ?_, ?_, ?_, ?_, ?_, ?_, ?_⟩ <;>
    simp [checkConfirmationThenExecute, bulk_delete_wrapper, bulk_stop_wrapper,
      bulk_restart_wrapper, bulk_delete_by_label_wrapper, bulk_stop_by_label_wrapper,
      bulk_restart_by_label_wrapper, bulk_label_wrapper, bulk_unlabel_wrapper, hd, hc]

/-- Witness for C1 at concrete inputs (both flags absent). -/
theorem confirmation_gate_blocks_unconfirmed_bulk_witness :
    bulk_delete_wrapper "proj-a" ["a-sess"] none none stW =
      (.error (confirmationMsg "delete"), stW) ∧
    bulk_unlabel_wrapper "agenticsession" ["a-sess"] "proj-a" ["env"] none none stW =
      (.error (confirmationMsg "unlabel"), stW) := by
  have h := confirmation_gate_blocks_unconfirmed_bulk envW "proj-a" "agenticsession"
    ["a-sess"] ["a-sess"] ["env"] [("env", "prod")] none none stW rfl rfl
  exact ⟨h.2.1, h.2.2.2.2.2.2.2.2⟩

/-! ### C2 — the 3-item bulk cap -/

/-- C2: every bulk operation given more than `MAX_BULK_ITEMS = 3` targets
returns the cap error — which spells out the cap and the requested count —
with the cluster state unchanged, so the per-target operation is invoked
zero times; stated for the generic `_bulk_operation` (arbitrary operation
function) and for every hand-rolled bulk loop. -/
theorem bulk_cap_blocks_oversized_batch
    (project resource_type success_key : String) (names label_keys : List String)
    (labels : List (String × String))
    (opFn : String → Bool → ClusterState → Except String OpResult × ClusterState)
    (dry_run : Bool) (st : ClusterState)
    (h : names.length > MAX_BULK_ITEMS) :
    bulkOperation opFn names success_key dry_run st =
      (.error (bulkLimitMsg success_key names.length), st) ∧
    bulk_delete_sessions project names dry_run st =
      (.error (bulkLimitMsg "deleted" names.length), st) ∧
    bulk_stop_sessions project names dry_run st =
      (.error (bulkLimitMsg "stopped" names.length), st) ∧
    bulk_restart_sessions project names dry_run st =
      (.error (bulkLimitMsg "restart" names.length), st) ∧
    bulk_label_resources resource_type names project labels dry_run st =
      (.error (bulkLimitMsg "label" names.length), st) ∧
    bulk_unlabel_resources resource_type names project label_keys dry_run st =
      (.error (bulkLimitMsg "unlabel" names.length), st) ∧
    (∃ a b, bulkLimitMsg success_key names.length = a ++ toString MAX_BULK_ITEMS ++ b) ∧
    (∃ a b, bulkLimitMsg success_key names.length = a ++ toString names.length ++ b) := by
  refine ⟨?_, ?_, ?_, ?_, ?_, ?_,
    ⟨"Bulk " ++ success_key ++ " limited to ",
     " items for safety. You requested " ++ toString names.length ++
       " items. Split into multiple operations.", ?_⟩,
    ⟨"Bulk " ++ success_key ++ " limited to " ++ toString MAX_BULK_ITEMS ++
       " items for safety. You requested ",
     " items. Split into multiple operations.", ?_⟩⟩
  all_goals
    simp [bulkOperation, bulk_delete_sessions, bulk_stop_sessions, bulk_restart_sessions,
      bulk_label_resources, bulk_unlabel_resources, validateBulkOperation, h, bulkLimitMsg,
      String.append_assoc]

/-- Witness for C2: four targets. -/
theorem bulk_cap_blocks_oversized_batch_witness :
    bulk_delete_sessions "proj-a" ["s1", "s2", "s3", "s4"] false stW =
      (.error (bulkLimitMsg "deleted" 4), stW) := by
  have h := bulk_cap_blocks_oversized_batch "proj-a" "agenticsession" "deleted"
    ["s1", "s2", "s3", "s4"] [] [] (fun sess d stx => delete_session "proj-a" sess d stx)
    false stW (by decide)
  exact h.2.1

/-! ### C8 — sort directions -/

/-- The structural comparison agrees with lexicographic `Lex (· < ·)`. -/
theorem strLtb_iff : ∀ a b : List Char, strLtb a b = true ↔ List.Lex (· < ·) a b
  | [], [] => by
    simp only [strLtb, Bool.false_eq_true, false_iff]
    exact List.Lex.not_nil_right _ _
  | [], _ :: _ => by
    simp only [strLtb, true_iff]
    exact List.Lex.nil
  | _ :: _, [] => by
    simp only [strLtb, Bool.false_eq_true, false_iff]
    exact List.Lex.not_nil_right _ _
  | a :: as, b :: bs => by
    simp only [strLtb]
    rcases lt_trichotomy a b with h | h | h
    · simp only [h, if_pos, true_iff]
      exact List.Lex.rel h
    · subst h
      rw [if_neg (lt_irrefl a), if_neg (lt_irrefl a)]
      rw [strLtb_iff as bs]
      exact List.Lex.cons_iff.symm
    · rw [if_neg (not_lt_of_gt h), if_pos h]
      simp only [Bool.false_eq_true, false_iff]
      intro hlex
      cases hlex with
      | cons _ => exact lt_irrefl _ h
      | rel h' => exact absurd h' (not_lt_of_gt h)

/-- `pyStrLe` is the `≤` of the linear order on `String`. -/
theorem pyStrLe_iff (a b : String) : pyStrLe a b = true ↔ a ≤ b := by
  have h1 : strLtb b.data a.data = true ↔ b < a := by
    rw [strLtb_iff b.data a.data, String.lt_iff_toList_lt]
    exact Iff.rfl
  constructor
  · intro h
    refine not_lt.mp (fun hlt => ?_)
    have h3 : strLtb b.data a.data = true := h1.mpr hlt
    simp only [pyStrLe, h3, Bool.not_true] at h
    exact absurd h (by simp)
  · intro h
    have h2 : ¬ b < a := not_lt.mpr h
    rw [← h1] at h2
    simp only [pyStrLe]
    cases hcase : strLtb b.data a.data
    · rfl
    · exact absurd hcase h2

theorem pyStrLe_trans {x y z : String} (hab : pyStrLe x y = true) (hbc : pyStrLe y z = true) :
    pyStrLe x z = true :=
  (pyStrLe_iff _ _).mpr (le_trans ((pyStrLe_iff _ _).mp hab) ((pyStrLe_iff _ _).mp hbc))

theorem pyStrLe_total (x y : String) : (pyStrLe x y || pyStrLe y x) = true := by
  rcases le_total x y with h | h
  · simp [(pyStrLe_iff _ _).mpr h]
  · simp [(pyStrLe_iff _ _).mpr h]

/-- C8: sorting by `name` is ascending, sorting by `created` or `stopped`
is descending (each a permutation of the input), and any unrecognized sort
key returns the input list unchanged rather than raising. -/
theorem sort_sessions_orders (l : List Session) :
    (∀ k : String, k ≠ "created" → k ≠ "stopped" → k ≠ "name" → sortSessions l k = l) ∧
    ((sortSessions l "name").Perm l ∧
      (sortSessions l "name").Pairwise (fun a b => nameKey a ≤ nameKey b)) ∧
    ((sortSessions l "created").Perm l ∧
      (sortSessions l "created").Pairwise (fun a b => createdKey b ≤ createdKey a)) ∧
    ((sortSessions l "stopped").Perm l ∧
      (sortSessions l "stopped").Pairwise (fun a b => stoppedKey b ≤ stoppedKey a)) := by
  refine ⟨?_, ⟨?_, ?_⟩, ⟨?_, ?_⟩, ⟨?_, ?_⟩⟩
  · intro k h1 h2 h3
    simp [sortSessions, h1, h2, h3]
  · simpa [sortSessions] using
      List.mergeSort_perm l (fun a b => pyStrLe (nameKey a) (nameKey b))
  · have hs := @List.sorted_mergeSort Session (fun a b => pyStrLe (nameKey a) (nameKey b))
      (fun _ _ _ hab hbc => pyStrLe_trans hab hbc)
      (fun a b => pyStrLe_total (nameKey a) (nameKey b)) l
    have heq : sortSessions l "name" = l.mergeSort (fun a b => pyStrLe (nameKey a) (nameKey b)) := by
      simp [sortSessions]
    rw [heq]
    exact hs.imp (fun h => (pyStrLe_iff _ _).mp h)
  · simpa [sortSessions] using
      List.mergeSort_perm l (fun a b => pyStrLe (createdKey b) (createdKey a))
  · have hs := @List.sorted_mergeSort Session (fun a b => pyStrLe (createdKey b) (createdKey a))
      (fun _ _ _ hab hbc => pyStrLe_trans hbc hab)
      (fun a b => pyStrLe_total (createdKey b) (createdKey a)) l
    have heq : sortSessions l "created" =
        l.mergeSort (fun a b => pyStrLe (createdKey b) (createdKey a)) := by
      simp [sortSessions]
    rw [heq]
    exact hs.imp (fun h => (pyStrLe_iff _ _).mp h)
  · simpa [sortSessions] using
      List.mergeSort_perm l (fun a b => pyStrLe (stoppedKey b) (stoppedKey a))
  · have hs := @List.sorted_mergeSort Session (fun a b => pyStrLe (stoppedKey b) (stoppedKey a))
      (fun _ _ _ hab hbc => pyStrLe_trans hbc hab)
      (fun a b => pyStrLe_total (stoppedKey b) (stoppedKey a)) l
    have heq : sortSessions l "stopped" =
        l.mergeSort (fun a b => pyStrLe (stoppedKey b) (stoppedKey a)) := by
      simp [sortSessions]
    rw [heq]
    exact hs.imp (fun h => (pyStrLe_iff _ _).mp h)

/-- Witness for C8: the unknown sort key `"bogus"` is the identity on a
concrete two-element list, whose `name` sort is ascending. -/
theorem sort_sessions_orders_witness :
    sortSessions [sessB, sessA] "bogus" = [sessB, sessA] ∧
    (sortSessions [sessB, sessA] "name").Pairwise (fun a b => nameKey a ≤ nameKey b) := by
  have h := sort_sessions_orders [sessB, sessA]
  exact ⟨h.1 "bogus" (by decide) (by decide) (by decide), h.2.1.2⟩

/-! ### Pipeline lemmas shared by C9 and C10 -/

/-- Every sort key yields a permutation of the input. -/
theorem sortSessions_perm (l : List Session) (k : String) : (sortSessions l k).Perm l := by
  unfold sortSessions
  split
  · exact List.mergeSort_perm l _
  · split
    · exact List.mergeSort_perm l _
    · split
      · exact List.mergeSort_perm l _
      · exact List.Perm.refl l

theorem applySort_perm (l : List Session) (sb : Option String) : (applySort l sb).Perm l := by
  unfold applySort
  split
  · split
    · exact List.Perm.refl l
    · exact sortSessions_perm l _
  · exact List.Perm.refl l

theorem applyLimit_sublist (l : List Session) (lim : Option Int) : (applyLimit l lim).Sublist l := by
  unfold applyLimit
  split
  · split
    · exact List.take_sublist _ l
    · exact List.Sublist.refl l
  · exact List.Sublist.refl l

/-- The post-fetch pipeline never invents or duplicates records, and its
`total` field is the length of the final list. -/
theorem processSessions_ok (env : Env) (sessions : List Session) (status : Option String)
    (hdn : Option Bool) (ot sb : Option String) (lim : Option Int) (resp : ListResponse)
    (h : processSessions env sessions status hdn ot sb lim = .ok resp) :
    resp.total = resp.sessions.length ∧
    ∀ x : Session, resp.sessions.count x ≤ sessions.count x := by
  unfold processSessions at h
  split at h
  · exact absurd h (by simp)
  · rename_i cutoff heq
    injection h with h
    subst h
    refine ⟨rfl, fun x => ?_⟩
    calc (applyLimit (applySort (sessions.filter _) sb) lim).count x
        ≤ (applySort (sessions.filter _) sb).count x :=
          (applyLimit_sublist _ lim).count_le x
      _ = (sessions.filter _).count x := (applySort_perm _ sb).count_eq x
      _ ≤ sessions.count x := (List.filter_sublist sessions).count_le x

/-- A successful list call returns a sub-multiset of the cluster contents
and leaves the session store unchanged. -/
theorem listResourcesJson_ok (resourceType ns : String) (selector : Option String)
    (st : ClusterState) (l : List Session) (st' : ClusterState)
    (h : listResourcesJson resourceType ns selector st = (.ok l, st')) :
    st'.sessions = st.sessions ∧ ∀ x : Session, l.count x ≤ st.sessions.count x := by
  unfold listResourcesJson at h
  split at h
  · simp at h
  · split at h
    · simp at h
    · split at h
      · split at h
        · simp at h
        · split at h
          · simp at h
          · injection h with h1 h2
            injection h1 with h1
            subst h1
            subst h2
            exact ⟨rfl, fun x => (List.filter_sublist st.sessions).count_le x⟩
      · split at h
        · simp at h
        · injection h with h1 h2
          injection h1 with h1
          subst h1
          subst h2
          exact ⟨rfl, fun x => Nat.le_refl _⟩

/-! ### C10 — total equals the returned length; results come from the cluster -/

/-- C10: every successful `list_sessions` response has `total` equal to the
length of the returned list (computed after filter, sort and limit), and the
returned sessions are a sub-multiset of the cluster records — the pipeline
never invents or duplicates records. -/
theorem list_sessions_total_and_subset
    (env : Env) (project : String) (status : Option String) (hdn : Option Bool)
    (older_than sort_by : Option String) (limit : Option Int) (label_selector : Option String)
    (st st' : ClusterState) (resp : ListResponse)
    (h : list_sessions env project status hdn older_than sort_by limit label_selector st =
      (.ok resp, st')) :
    resp.total = resp.sessions.length ∧
    ∀ x : Session, resp.sessions.count x ≤ st.sessions.count x := by
  unfold list_sessions at h
  split at h
  · simp at h
  · rename_i fetched st2 heq
    split at h
    · simp at h
    · rename_i resp2 hproc
      injection h with h1 h2
      injection h1 with h1
      subst h1
      have hfetch := listResourcesJson_ok _ _ _ _ _ _ heq
      have hp := processSessions_ok _ _ _ _ _ _ _ _ hproc
      exact ⟨hp.1, fun x => le_trans (hp.2 x) (hfetch.2 x)⟩

/-- Witness for C10 on a concrete cluster and a filtered, limited query. -/
theorem list_sessions_total_and_subset_witness :
    ({ sessions := [sessA], total := 1,
       filtersApplied := [("status", "running"), ("limit", "1")] } : ListResponse).total =
      [sessA].length ∧
    ∀ x : Session,
      List.count x [sessA] ≤ List.count x stW.sessions := by
  have h := list_sessions_total_and_subset envW "proj-a" (some "running") none none none
    (some 1) none stW
    { sessions := stW.sessions, trace := [OcCall.list "agenticsession" "proj-a" none] }
    { sessions := [sessA], total := 1,
      filtersApplied := [("status", "running"), ("limit", "1")] }
    rfl
  exact h

/-! ### C9 — limit semantics -/

/-- C9: with the same records, filters and sort, `limit = n > 0` truncates
to the first `n` elements of the untruncated result (and `total` counts the
truncated list), while `limit = n ≤ 0` returns exactly the untruncated
result — no truncation.  (An absent limit is the untruncated result by
definition.) -/
theorem list_limit_truncates
    (env : Env) (sessions : List Session) (status : Option String) (hdn : Option Bool)
    (ot sb : Option String) (n : Int) (resp respAll : ListResponse)
    (hs : processSessions env sessions status hdn ot sb (some n) = .ok resp)
    (ha : processSessions env sessions status hdn ot sb none = .ok respAll) :
    (0 < n →
      resp.sessions = respAll.sessions.take n.toNat ∧ resp.total = resp.sessions.length) ∧
    (n ≤ 0 → resp.sessions = respAll.sessions ∧ resp.total = respAll.total) := by
  unfold processSessions at hs ha
  cases hc : cutoffOf env ot with
  | error e =>
    rw [hc] at hs
    exact absurd hs (by simp)
  | ok cutoff =>
    rw [hc] at hs ha
    injection hs with hs
    injection ha with ha
    subst hs
    subst ha
    constructor
    · intro hn
      refine ⟨?_, rfl⟩
      show applyLimit _ (some n) = _
      simp only [applyLimit]
      rw [if_pos]
      simp only [Bool.and_eq_true, decide_eq_true_eq]
      exact ⟨by omega, hn⟩
    · intro hn
      have hb : ¬ (((n ≠ 0 : Bool) && decide (0 < n)) = true) := by
        simp only [Bool.and_eq_true, decide_eq_true_eq, not_and]
        intro _
        omega
      constructor
      · show applyLimit _ (some n) = _
        simp only [applyLimit]
        rw [if_neg hb]
      · show (applyLimit _ (some n)).length = _
        simp only [applyLimit]
        rw [if_neg hb]

/-- Witness for C9: records sorted descending by `created` as `[b, a]`,
`limit = 1` yields `[b]` with `total = 1`. -/
theorem list_limit_truncates_witness :
    (0 < (1 : Int) →
      ({ sessions := [sessB], total := 1,
         filtersApplied := [("sort_by", "created"), ("limit", "1")] } : ListResponse).sessions =
        ({ sessions := [sessB, sessA], total := 2,
           filtersApplied := [("sort_by", "created")] } : ListResponse).sessions.take
          (1 : Int).toNat ∧
      ({ sessions := [sessB], total := 1,
         filtersApplied := [("sort_by", "created"), ("limit", "1")] } : ListResponse).total =
        ({ sessions := [sessB], total := 1,
           filtersApplied := [("sort_by", "created"), ("limit", "1")] } :
          ListResponse).sessions.length) ∧
    ((1 : Int) ≤ 0 →
      ({ sessions := [sessB], total := 1,
         filtersApplied := [("sort_by", "created"), ("limit", "1")] } : ListResponse).sessions =
        ({ sessions := [sessB, sessA], total := 2,
           filtersApplied := [("sort_by", "created")] } : ListResponse).sessions ∧
      ({ sessions := [sessB], total := 1,
         filtersApplied := [("sort_by", "created"), ("limit", "1")] } : ListResponse).total =
        ({ sessions := [sessB, sessA], total := 2,
           filtersApplied := [("sort_by", "created")] } : ListResponse).total) := by
  have h := list_limit_truncates envW [sessA, sessB] none none none (some "created") 1
    { sessions := [sessB], total := 1,
      filtersApplied := [("sort_by", "created"), ("limit", "1")] }
    { sessions := [sessB, sessA], total := 2, filtersApplied := [("sort_by", "created")] }
    (by simp +decide [processSessions, cutoffOf, truthyStr, keepSession, applySort, sortSessions,
      List.mergeSort, applyLimit, filtersAppliedList, List.merge, pyStrLe, strLtb,
      createdKey, sessA, sessB])
    (by simp +decide [processSessions, cutoffOf, truthyStr, keepSession, applySort, sortSessions,
      List.mergeSort, applyLimit, filtersAppliedList, List.merge, pyStrLe, strLtb,
      createdKey, sessA, sessB])
  exact h

/-! ### C6 — `older_than` parsing and the age predicate -/

/-- Counterexample to C6 as stated: `"7dx"` is not of the form
`<integer><unit>`, yet `_parse_time_delta` accepts it — the regex
`(\d+)([dhm])` is unanchored at the end, so the `"7d"` prefix matches and
the trailing `"x"` is ignored, producing the 7-day cutoff instead of a
validation error. -/
theorem parse_time_delta_accepts_trailing_garbage :
    parseTimeDelta "7dx" 0 = .ok (-10080) ∧
    ∀ e, parseTimeDelta "7dx" 0 ≠ .error e := by
  refine ⟨rfl, fun e h => ?_⟩
  rw [show parseTimeDelta "7dx" 0 = .ok (-10080) from rfl] at h
  exact absurd h (by simp)

/-- The prefix format the amended C6 describes: the lowercased string starts
with one or more digits followed by a unit character in `{d, h, m}`. -/
def timePrefixOk (time_str : String) : Bool :=
  match (pyLower time_str).data.takeWhile Char.isDigit,
      (pyLower time_str).data.dropWhile Char.isDigit with
  | _ :: _, c :: _ => timeUnitChar c
  | _, _ => false

/-- The cutoff the amended C6 predicts: `now` minus the duration read from
the digits/unit prefix of the lowercased string. -/
def timePrefixCutoff (time_str : String) (now : Int) : Int :=
  match (pyLower time_str).data.dropWhile Char.isDigit with
  | c :: _ => now - unitMinutes c (digitsToNat ((pyLower time_str).data.takeWhile Char.isDigit))
  | [] => now

/-- C6 (amended): `_parse_time_delta` fails — with an error naming the
offending value — exactly when the lowercased string does not *start* with
`<integer><unit>`, `unit ∈ {d, h, m}` (trailing characters are ignored);
on success it returns now-minus-duration.  A record passes the age filter
only if its parsed timestamp is strictly less than the cutoff, and a record
with a missing (or empty) creation timestamp never passes. -/
theorem parse_time_delta_prefix_semantics (time_str : String) (now : Int) :
    (parseTimeDelta time_str now = .error (invalidTimeMsg time_str) ↔
      timePrefixOk time_str = false) ∧
    (timePrefixOk time_str = true →
      parseTimeDelta time_str now = .ok (timePrefixCutoff time_str now)) ∧
    (∃ a b, invalidTimeMsg time_str = a ++ time_str ++ b) ∧
    (∀ (parse : String → Int) (cutoff : Int), isOlderThan parse none cutoff = false) ∧
    (∀ (parse : String → Int) (cutoff : Int) (ts : String), ¬ ts.isEmpty = true →
      (isOlderThan parse (some ts) cutoff = true ↔ parse ts < cutoff)) := by
  refine ⟨?_, ?_,
    ⟨"Invalid time format: ", ". Use format like \x277d\x27, \x2724h\x27, \x2730m\x27", rfl⟩,
    fun parse cutoff => rfl, fun parse cutoff ts hts => ?_⟩
  · unfold parseTimeDelta timePrefixOk
    cases hds : (pyLower time_str).data.takeWhile Char.isDigit with
    | nil =>
      cases hrest : (pyLower time_str).data.dropWhile Char.isDigit with
      | nil => simp [hds, hrest]
      | cons c cs => simp [hds, hrest]
    | cons d ds =>
      cases hrest : (pyLower time_str).data.dropWhile Char.isDigit with
      | nil => simp [hds, hrest]
      | cons c cs =>
        by_cases hu : timeUnitChar c = true
        · simp [hds, hrest, hu]
        · simp [hds, hrest, hu]
  · intro h
    unfold timePrefixOk at h
    unfold parseTimeDelta timePrefixCutoff
    cases hds : (pyLower time_str).data.takeWhile Char.isDigit with
    | nil =>
      rw [hds] at h
      cases hrest : (pyLower time_str).data.dropWhile Char.isDigit with
      | nil => rw [hrest] at h; simp at h
      | cons c cs => rw [hrest] at h; simp at h
    | cons d ds =>
      rw [hds] at h
      cases hrest : (pyLower time_str).data.dropWhile Char.isDigit with
      | nil => rw [hrest] at h; simp at h
      | cons c cs =>
        rw [hrest] at h
        simp only [] at h
        simp [hds, hrest, h]
  · simp [isOlderThan, hts]

/-- Witness for the amended C6 at concrete inputs. -/
theorem parse_time_delta_prefix_semantics_witness :
    parseTimeDelta "24h" 0 = .ok (timePrefixCutoff "24h" 0) ∧
    isOlderThan (fun _ => 5) none 0 = false ∧
    (isOlderThan (fun _ => 5) (some "ts") 10 = true ↔ (5 : Int) < 10) := by
  have h := parse_time_delta_prefix_semantics "24h" 0
  exact ⟨h.2.1 rfl, h.2.2.2.1 (fun _ => 5) 0,
    h.2.2.2.2 (fun _ => 5) 10 "ts" (by decide)⟩

/-! ### C3 — DNS-1123 validation and where it is (not) applied -/

theorem isNameMiddle_of_lower {c : Char} (h : isLowerAlnum c = true) : isNameMiddle c = true := by
  unfold isNameMiddle
  simp [h]

/-- A list matched by the regex body consists only of `[-a-z0-9]`
characters. -/
theorem dns1123Body_chars {l : List Char} (h : dns1123Body l = true) :
    ∀ c ∈ l, isNameMiddle c = true := by
  intro c hc
  cases l with
  | nil => simp at hc
  | cons a rest =>
    simp only [dns1123Body] at h
    cases hr : rest.reverse with
    | nil =>
      rw [hr] at h
      have hrest : rest = [] := by
        have := congrArg List.reverse hr
        simpa using this
      subst hrest
      simp at hc
      subst hc
      exact isNameMiddle_of_lower h
    | cons d mid =>
      rw [hr] at h
      simp only [Bool.and_eq_true] at h
      have hrest : rest = mid.reverse ++ [d] := by
        have := congrArg List.reverse hr
        simpa using this
      rcases List.mem_cons.mp hc with rfl | hc2
      · exact isNameMiddle_of_lower h.1.1
      · rw [hrest] at hc2
        rcases List.mem_append.mp hc2 with hcm | hcd
        · exact List.all_eq_true.mp h.2 c (List.mem_reverse.mp hcm)
        · have hcd2 : c = d := by simpa using hcd
          subst hcd2
          exact isNameMiddle_of_lower h.1.2

/-- A name accepted by `_validate_input`\x27s regex consists of `[-a-z0-9]`
characters, except possibly one trailing newline (Python `$` semantics). -/
theorem matchesDns1123_chars {s : String} (h : matchesDns1123 s = true) :
    ∀ c ∈ s.data, isNameMiddle c = true ∨ c = '\n' := by
  intro c hc
  unfold matchesDns1123 at h
  rcases Bool.or_eq_true _ _ |>.mp h with hb | htail
  · exact Or.inl (dns1123Body_chars hb c hc)
  · cases hr : s.data.reverse with
    | nil => rw [hr] at htail; simp at htail
    | cons d rest =>
      rw [hr] at htail
      simp only [Bool.and_eq_true, decide_eq_true_eq] at htail
      have hsd : s.data = rest.reverse ++ [d] := by
        have := congrArg List.reverse hr
        simpa using this
      rw [hsd] at hc
      rcases List.mem_append.mp hc with hcm | hcd
      · exact Or.inl (dns1123Body_chars htail.2 c hcm)
      · have hcd2 : c = d := by simpa using hcd
        exact Or.inr (hcd2.trans htail.1)

/-- A `[-a-z0-9]` character is never a shell metacharacter. -/
theorem not_suspicious_of_nameMiddle {c : Char} (h : isNameMiddle c = true) :
    suspiciousChar c = false := by
  cases hs : suspiciousChar c
  · rfl
  · exfalso
    have hd : c = ';' ∨ c = '|' ∨ c = '&' ∨ c = '$' ∨ c = Char.ofNat 96 ∨ c = '\n' ∨ c = '\r' := by
      unfold suspiciousChar at hs
      simp only [Bool.or_eq_true, decide_eq_true_eq] at hs
      tauto
    rcases hd with rfl | rfl | rfl | rfl | rfl | rfl | rfl <;> exact absurd h (by decide)

/-- The condition under which `_validate_input` succeeds. -/
def validName (v : String) : Bool :=
  decide (v.length ≤ 253) && matchesDns1123 v

/-- A name for which a CLI call will actually be issued: it passes both
`_validate_input` and the metacharacter screen of `_run_oc_command`.
(A trailing-newline name such as `"abc\n"` passes the validator but is
stopped by the metacharacter screen, so it is not fetch-ready.) -/
def fetchReady (v : String) : Bool :=
  validName v && !(argSuspicious v)

theorem validName_of_fetchReady {v : String} (h : fetchReady v = true) : validName v = true :=
  (Bool.and_eq_true _ _ |>.mp h).1

theorem argSuspicious_of_fetchReady {v : String} (h : fetchReady v = true) :
    argSuspicious v = false := by
  have := (Bool.and_eq_true _ _ |>.mp h).2
  simpa using this

theorem validName_matches {v : String} (h : validName v = true) : matchesDns1123 v = true := by
  unfold validName at h
  exact (Bool.and_eq_true _ _ |>.mp h).2

theorem validateInput_ok_of_valid {v : String} (f : String) (h : validName v = true) :
    validateInput v f = .ok () := by
  unfold validName at h
  simp only [Bool.and_eq_true, decide_eq_true_eq] at h
  unfold validateInput
  rw [if_neg (by omega), if_neg (by simp [h.2])]

theorem validateInput_error_of_invalid {v : String} (f : String) (h : validName v = false) :
    ∃ e, validateInput v f = .error e := by
  unfold validateInput
  by_cases h1 : v.length > 253
  · exact ⟨f ++ " exceeds maximum length of " ++ toString 253, by rw [if_pos h1]⟩
  · have h2 : matchesDns1123 v = false := by
      unfold validName at h
      rcases Bool.and_eq_false_iff.mp h with hd | hm
      · exact absurd hd (by simp; omega)
      · exact hm
    exact ⟨f ++ " contains invalid characters. Must match: ^[a-z0-9]([-a-z0-9]*[a-z0-9])?$",
      by rw [if_neg h1, if_pos (by simp [h2])]⟩

/-- A get on an invalid name raises the naming error before any CLI call. -/
theorem getResourceJson_invalid_name {t : String} (project : String) (st : ClusterState)
    (e : String) (he : validateInput t "resource name" = .error e) :
    getResourceJson "agenticsession" t project st = (.error e, st) := by
  unfold getResourceJson
  rw [show ALLOWED_RESOURCE_TYPES.contains "agenticsession" = true from by decide]
  simp [he]

/-- A metacharacter-bearing name is caught by the screen of
`_run_oc_command`: the first suspicious argument of the `get` vector. -/
theorem checkArgs_get_suspicious {t : String} (project : String) (hs : argSuspicious t = true) :
    checkArgs ["get", "agenticsession", t, "-n", project, "-o", "json"] =
      .error ("Argument contains suspicious characters: " ++ t) := by
  unfold checkArgs
  rw [List.find?_cons_of_neg _ (by decide), List.find?_cons_of_neg _ (by decide),
    List.find?_cons_of_pos _ hs]

/-- A validator-passing name that still carries a metacharacter (e.g. one
with a trailing newline) is stopped by the screen before any CLI call. -/
theorem getResourceJson_suspicious (t project : String) (st : ClusterState)
    (ht : validName t = true) (hp : validName project = true) (hs : argSuspicious t = true) :
    getResourceJson "agenticsession" t project st =
      (.error ("Argument contains suspicious characters: " ++ t), st) := by
  unfold getResourceJson
  rw [show ALLOWED_RESOURCE_TYPES.contains "agenticsession" = true from by decide]
  rw [validateInput_ok_of_valid "resource name" ht, validateInput_ok_of_valid "namespace" hp]
  rw [checkArgs_get_suspicious project hs]
  simp

/-- A target that is not fetch-ready never reaches the CLI: the get raises
(a naming error or the metacharacter screen) with the state untouched. -/
theorem getResourceJson_not_fetchReady (t project : String) (st : ClusterState)
    (hp : validName project = true) (h : fetchReady t = false) :
    ∃ e, getResourceJson "agenticsession" t project st = (.error e, st) := by
  by_cases hvt : validName t = true
  · have hs : argSuspicious t = true := by
      unfold fetchReady at h
      rcases Bool.and_eq_false_iff.mp h with hd | hm
      · exact absurd hvt (by simp [hd])
      · simpa using hm
    exact ⟨_, getResourceJson_suspicious t project st hvt hp hs⟩
  · obtain ⟨e, he⟩ := validateInput_error_of_invalid "resource name" (by simpa using hvt)
    exact ⟨e, getResourceJson_invalid_name project st e he⟩

/-- A get on fetch-ready names issues exactly one read call and resolves
from the cluster contents. -/
theorem getResourceJson_valid (t project : String) (st : ClusterState)
    (ht : fetchReady t = true) (hp : fetchReady project = true) :
    getResourceJson "agenticsession" t project st =
      ((match findSession st.sessions t with
        | some sd => .ok sd
        | none => .error ("Failed to get " ++ "agenticsession" ++ " \x27" ++ t ++ "\x27: " ++
            notFoundStderr "agenticsession" t)),
       { st with trace := st.trace ++ [OcCall.get "agenticsession" t project] }) := by
  have hvt := validateInput_ok_of_valid "resource name" (validName_of_fetchReady ht)
  have hvp := validateInput_ok_of_valid "namespace" (validName_of_fetchReady hp)
  have hargs : checkArgs ["get", "agenticsession", t, "-n", project, "-o", "json"] = .ok () := by
    unfold checkArgs
    have hfind : List.find? argSuspicious ["get", "agenticsession", t, "-n", project, "-o", "json"]
        = none := by
      rw [List.find?_eq_none]
      intro a ha
      simp only [List.mem_cons, List.not_mem_nil, or_false] at ha
      rcases ha with rfl | rfl | rfl | rfl | rfl | rfl | rfl
      · decide
      · decide
      · simp [argSuspicious_of_fetchReady ht]
      · decide
      · simp [argSuspicious_of_fetchReady hp]
      · decide
      · decide
    rw [hfind]
  unfold getResourceJson
  rw [show ALLOWED_RESOURCE_TYPES.contains "agenticsession" = true from by decide]
  rw [hvt, hvp, hargs]
  cases hf : findSession st.sessions t <;> simp [hf]

/-- Counterexample to C3 as stated: `delete_session` in non-dry-run mode
never calls `_validate_input` — the invalid name `"My_Session"` reaches the
`oc delete` subprocess call (one `delete` call is issued) and the outcome is
the upstream CLI error, not a naming validation error. -/
theorem delete_session_skips_name_validation :
    matchesDns1123 "My_Session" = false ∧
    (delete_session "my-project" "My_Session" false stW).2.trace =
      [OcCall.delete "agenticsession" "My_Session" "my-project"] ∧
    (delete_session "my-project" "My_Session" false stW).1 =
      .ok { successKeyVal := some false,
            message := some ("Failed to delete session: " ++
              notFoundStderr "agenticsession" "My_Session") } :=
  ⟨by decide, rfl, rfl⟩

set_option maxRecDepth 8192 in
/-- C3 (amended): the resource-reading operations (`_get_resource_json`,
`_list_resources_json`, hence every dry-run validation and fetch-first
operation) validate the resource name and the namespace against the
DNS-1123 rule (≤ 253 characters) *before* issuing any CLI call and fail
with the naming error, state untouched; `delete_session` in non-dry-run
mode instead applies only the shell-metacharacter screen and issues the
`oc delete` call directly.  The validator itself accepts `"my-session-1"`
and rejects `"My_Session"`, a 254-character string of `'a'`, and any string
containing `;`, `|`, `&`, or a backtick; a newline is rejected except as a
single trailing character — Python\x27s `$` matches before a trailing
newline, so `"abc\n"` passes the validator (such a name is then stopped by
the metacharacter screen of `_run_oc_command` before any CLI call). -/
theorem name_validation_scope
    (rt name ns project sess f : String) (sel : Option String) (st : ClusterState) (e : String) :
    (ALLOWED_RESOURCE_TYPES.contains rt = true →
      validateInput name "resource name" = .error e →
      getResourceJson rt name ns st = (.error e, st)) ∧
    (ALLOWED_RESOURCE_TYPES.contains rt = true →
      validateInput name "resource name" = .ok () →
      validateInput ns "namespace" = .error e →
      getResourceJson rt name ns st = (.error e, st)) ∧
    (ALLOWED_RESOURCE_TYPES.contains rt = true →
      validateInput ns "namespace" = .error e →
      listResourcesJson rt ns sel st = (.error e, st)) ∧
    (argSuspicious sess = false → argSuspicious project = false →
      (delete_session project sess false st).2.trace =
        st.trace ++ [OcCall.delete "agenticsession" sess project]) ∧
    validateInput "my-session-1" f = .ok () ∧
    validateInput "My_Session" f =
      .error (f ++ " contains invalid characters. Must match: ^[a-z0-9]([-a-z0-9]*[a-z0-9])?$") ∧
    validateInput ⟨List.replicate 254 'a'⟩ f =
      .error (f ++ " exceeds maximum length of " ++ toString 253) ∧
    (∀ (v : String) (c : Char), c ∈ v.data →
      (c = ';' ∨ c = '|' ∨ c = '&' ∨ c = Char.ofNat 96) →
      ∃ msg, validateInput v f = .error msg) ∧
    validateInput "abc\n" f = .ok () ∧
    validateInput "ab\ncd" f =
      .error (f ++ " contains invalid characters. Must match: ^[a-z0-9]([-a-z0-9]*[a-z0-9])?$") ∧
    (validName name = true → validName ns = true → argSuspicious name = true →
      getResourceJson "agenticsession" name ns st =
        (.error ("Argument contains suspicious characters: " ++ name), st)) := by
  refine ⟨?_, ?_, ?_, ?_, ?_, ?_, ?_, ?_, ?_, ?_, ?_⟩
  · intro hrt hval
    unfold getResourceJson
    rw [hrt]
    simp [hval]
  · intro hrt hname hval
    unfold getResourceJson
    rw [hrt]
    simp [hname, hval]
  · intro hrt hval
    unfold listResourcesJson
    rw [hrt]
    simp [hval]
  · intro hsess hproj
    have hargs : checkArgs ["delete", "agenticsession", sess, "-n", project] = .ok () := by
      unfold checkArgs
      have hfind : ["delete", "agenticsession", sess, "-n", project].find? argSuspicious = none := by
        rw [List.find?_eq_none]
        intro a ha
        simp only [List.mem_cons, List.not_mem_nil, or_false] at ha
        rcases ha with rfl | rfl | rfl | rfl | rfl
        · decide
        · decide
        · simp [hsess]
        · decide
        · simp [hproj]
      rw [hfind]
    cases hfind : findSession st.sessions sess <;>
      simp [delete_session, hargs, hfind]
  · simp +decide [validateInput]
  · simp +decide [validateInput]
  · rfl
  · intro v c hc hmeta
    by_cases hlen : v.length > 253
    · exact ⟨f ++ " exceeds maximum length of " ++ toString 253, by simp [validateInput, hlen]⟩
    · have hdns : matchesDns1123 v = false := by
        cases hd : matchesDns1123 v
        · rfl
        · exfalso
          have hm := matchesDns1123_chars hd c hc
          rcases hmeta with rfl | rfl | rfl | rfl <;>
            rcases hm with hmm | hmm <;> exact absurd hmm (by decide)
      exact ⟨f ++ " contains invalid characters. Must match: ^[a-z0-9]([-a-z0-9]*[a-z0-9])?$",
        by simp [validateInput, hlen, hdns]⟩
  · rfl
  · rfl
  · intro hn hns hsus
    exact getResourceJson_suspicious name ns st hn hns hsus

/-- Witness for the amended C3 at concrete inputs. -/
theorem name_validation_scope_witness :
    getResourceJson "agenticsession" "My_Session" "my-project" stW =
      (.error ("resource name" ++
        " contains invalid characters. Must match: ^[a-z0-9]([-a-z0-9]*[a-z0-9])?$"), stW) ∧
    validateInput "my-session-1" "resource name" = .ok () ∧
    validateInput "abc\n" "resource name" = .ok () ∧
    (∃ msg, validateInput "bad;name" "resource name" = .error msg) := by
  have h := name_validation_scope "agenticsession" "My_Session" "my-project" "my-project"
    "a-sess" "resource name" none stW
    ("resource name" ++ " contains invalid characters. Must match: ^[a-z0-9]([-a-z0-9]*[a-z0-9])?$")
  refine ⟨h.1 (by decide) (by simp +decide [validateInput]), h.2.2.2.2.1,
    h.2.2.2.2.2.2.2.2.1, ?_⟩
  exact h.2.2.2.2.2.2.2.1 "bad;name" ';' (by decide) (Or.inl rfl)

/-! ### C4 — independent per-target aggregation in normal mode -/

/-- The `session_info` block built by `_validate_session_for_dry_run`. -/
def dryInfoOf (sd : Session) : SessionInfo :=
  { name := some sd.name, status := sd.phase, created := sd.creationTimestamp,
    stoppedAt := sd.stoppedAt }

/-- The skip reason reported for an unusable dry-run target. -/
def drySkipReason (project t : String) : String :=
  "Session \x27" ++ t ++ "\x27 not found in project \x27" ++ project ++ "\x27"

/-- Eligibility of a dry-run delete target: a fetch-ready name that exists. -/
def dryEligible (sessions : List Session) (t : String) : Bool :=
  fetchReady t && (findSession sessions t).isSome

/-- The dry-run delete loop: per fetch-ready target exactly one read-only
`get` call (none for the rest), the cluster untouched, existing targets
previewed with their current status and the rest skipped with a reason. -/
theorem bulkDeleteLoop_dry (project : String) (hp : fetchReady project = true) :
    ∀ (targets : List String) (st : ClusterState) (wexec : List DryRunEntry)
      (skip : List SkippedEntry),
    ∃ st' : ClusterState,
      bulkLoop (fun sess d stx => delete_session project sess d stx) targets true
          [] [] wexec skip st =
        (.ok { success := [], failed := [], dryRun := true,
               wouldExecute := wexec ++
                 (targets.filter (dryEligible st.sessions)).map
                   (fun t => { session := t, info := (findSession st.sessions t).map dryInfoOf }),
               skipped := skip ++
                 (targets.filter (fun t => !(dryEligible st.sessions t))).map
                   (fun t => { session := t, reason := some (drySkipReason project t) }) },
         st') ∧
      st'.sessions = st.sessions ∧
      st'.trace = st.trace ++
        (targets.filter fetchReady).map (fun t => OcCall.get "agenticsession" t project)
  | [], st, wexec, skip => ⟨st, by simp [bulkLoop], rfl, by simp⟩
  | t :: rest, st, wexec, skip => by
    by_cases hv : fetchReady t = true
    · cases hfind : findSession st.sessions t with
      | some sd =>
        have hstep : delete_session project t true st =
            (.ok { dryRun := true, success := some true,
                   message := some ("Would " ++ "delete" ++ " session \x27" ++ t ++
                     "\x27 in project \x27" ++ project ++ "\x27"),
                   sessionInfo := some (dryInfoOf sd) },
             { st with trace := st.trace ++ [OcCall.get "agenticsession" t project] }) := by
          unfold delete_session validateSessionForDryRun
          rw [getResourceJson_valid t project st hv hp, hfind]
          simp [dryInfoOf]
        obtain ⟨st', ih1, ih2, ih3⟩ := bulkDeleteLoop_dry project hp rest
          { st with trace := st.trace ++ [OcCall.get "agenticsession" t project] }
          (wexec ++ [{ session := t, info := some (dryInfoOf sd) }]) skip
        refine ⟨st', ?_, ih2, ?_⟩
        · simp only [bulkLoop]
          rw [hstep]
          simp only [Option.getD_some, if_true]
          rw [ih1]
          have helig : dryEligible st.sessions t = true := by
            simp [dryEligible, hv, hfind]
          rw [List.filter_cons_of_pos helig, List.filter_cons_of_neg (by simp [helig])]
          simp [hfind]
        · rw [ih3]
          rw [List.filter_cons_of_pos hv]
          simp
      | none =>
        have hstep : delete_session project t true st =
            (.ok { dryRun := true, success := some false,
                   message := some (drySkipReason project t) },
             { st with trace := st.trace ++ [OcCall.get "agenticsession" t project] }) := by
          unfold delete_session validateSessionForDryRun
          rw [getResourceJson_valid t project st hv hp, hfind]
          simp [drySkipReason]
        obtain ⟨st', ih1, ih2, ih3⟩ := bulkDeleteLoop_dry project hp rest
          { st with trace := st.trace ++ [OcCall.get "agenticsession" t project] }
          wexec (skip ++ [{ session := t, reason := some (drySkipReason project t) }])
        refine ⟨st', ?_, ih2, ?_⟩
        · simp only [bulkLoop]
          rw [hstep]
          simp only [Option.getD_some, Bool.false_eq_true, if_false]
          rw [ih1]
          have helig : dryEligible st.sessions t = false := by
            simp [dryEligible, hfind]
          rw [List.filter_cons_of_neg (by simp [helig]),
            List.filter_cons_of_pos (by simp [helig])]
          simp
        · rw [ih3]
          rw [List.filter_cons_of_pos hv]
          simp
    · have hvf : fetchReady t = false := by simpa using hv
      obtain ⟨e, he⟩ := getResourceJson_not_fetchReady t project st
        (validName_of_fetchReady hp) hvf
      have hstep : delete_session project t true st =
          (.ok { dryRun := true, success := some false,
                 message := some (drySkipReason project t) }, st) := by
        unfold delete_session validateSessionForDryRun
        rw [he]
        simp [drySkipReason]
      obtain ⟨st', ih1, ih2, ih3⟩ := bulkDeleteLoop_dry project hp rest st
        wexec (skip ++ [{ session := t, reason := some (drySkipReason project t) }])
      refine ⟨st', ?_, ih2, ?_⟩
      · simp only [bulkLoop]
        rw [hstep]
        simp only [Option.getD_some, Bool.false_eq_true, if_false]
        rw [ih1]
        have helig : dryEligible st.sessions t = false := by
          simp [dryEligible, hvf]
        rw [List.filter_cons_of_neg (by simp [helig]),
          List.filter_cons_of_pos (by simp [helig])]
        simp
      · rw [ih3]
        rw [List.filter_cons_of_neg (by simp [hvf])]

/-- C5: a dry-run bulk delete performs zero mutating calls — each
fetch-ready target incurs exactly one read-only `get` lookup, others none, and
the cluster contents are untouched; every existing target produces a
preview entry carrying its current status, and targets that cannot be
fetched are reported as skipped with a reason string. -/
theorem bulk_delete_dry_run_preview
    (project : String) (targets : List String) (st : ClusterState)
    (hlen : targets.length ≤ MAX_BULK_ITEMS) (hp : fetchReady project = true) :
    ∃ st' : ClusterState,
      bulk_delete_sessions project targets true st =
        (.ok { success := [], failed := [], dryRun := true,
               wouldExecute :=
                 (targets.filter (dryEligible st.sessions)).map
                   (fun t => { session := t, info := (findSession st.sessions t).map dryInfoOf }),
               skipped :=
                 (targets.filter (fun t => !(dryEligible st.sessions t))).map
                   (fun t => { session := t, reason := some (drySkipReason project t) }) },
         st') ∧
      st'.sessions = st.sessions ∧
      st'.trace = st.trace ++
        (targets.filter fetchReady).map (fun t => OcCall.get "agenticsession" t project) ∧
      ∀ c ∈ st'.trace.drop st.trace.length, c.isMutating = false := by
  obtain ⟨st', h1, h2, h3⟩ := bulkDeleteLoop_dry project hp targets st [] []
  refine ⟨st', ?_, h2, h3, ?_⟩
  · unfold bulk_delete_sessions bulkOperation validateBulkOperation
    rw [if_neg (by omega)]
    simpa using h1
  · intro c hc
    rw [h3, List.drop_left] at hc
    obtain ⟨t, _, rfl⟩ := List.mem_map.mp hc
    rfl

/-- Witness for C5: dry-run delete of `["a-sess", "nope"]` where `a-sess`
exists (previewed with status `Running`) and `nope` does not (skipped). -/
theorem bulk_delete_dry_run_preview_witness :
    ∃ st' : ClusterState,
      bulk_delete_sessions "proj-a" ["a-sess", "nope"] true stW =
        (.ok { success := [], failed := [], dryRun := true,
               wouldExecute := [{ session := "a-sess", info := some (dryInfoOf sessA) }],
               skipped := [{ session := "nope",
                             reason := some (drySkipReason "proj-a" "nope") }] },
         st') ∧
      st'.sessions = stW.sessions ∧
      st'.trace = [OcCall.get "agenticsession" "a-sess" "proj-a",
        OcCall.get "agenticsession" "nope" "proj-a"] := by
  obtain ⟨st', h1, h2, h3, _⟩ := bulk_delete_dry_run_preview "proj-a" ["a-sess", "nope"] stW
    (by decide) (by decide)
  refine ⟨st', ?_, h2, by rw [h3]; rfl⟩
  rw [h1]
  rfl

/-! ### C7 — label-selector bulk operations and the resolved-count cap -/

/-- Characters of the selector class are never shell metacharacters. -/
theorem not_suspicious_of_selectorChar {c : Char} (h : selectorChar c = true) :
    suspiciousChar c = false := by
  cases hs : suspiciousChar c
  · rfl
  · exfalso
    have hd : c = ';' ∨ c = '|' ∨ c = '&' ∨ c = '$' ∨ c = Char.ofNat 96 ∨ c = '\n' ∨ c = '\r' := by
      unfold suspiciousChar at hs
      simp only [Bool.or_eq_true, decide_eq_true_eq] at hs
      tauto
    rcases hd with rfl | rfl | rfl | rfl | rfl | rfl | rfl <;> exact absurd h (by decide)

theorem not_argSuspicious_of_selector {s : String} (h : s.data.all selectorChar = true) :
    argSuspicious s = false := by
  unfold argSuspicious
  rw [List.any_eq_false]
  intro c hc
  simp [not_suspicious_of_selectorChar (List.all_eq_true.mp h c hc)]

/-- With no filters, sort or limit, the pipeline is the identity. -/
theorem processSessions_trivial (env : Env) (sessions : List Session) :
    processSessions env sessions none none none none none =
      .ok { sessions := sessions, total := sessions.length, filtersApplied := [] } := by
  unfold processSessions cutoffOf truthyStr keepSession applySort applyLimit filtersAppliedList
  simp

/-- `list_sessions_by_user_labels` with a well-formed selector issues one
list call and returns exactly the matching records. -/
theorem listSessions_by_label_resolves (env : Env) (project : String)
    (labels : List (String × String)) (st : ClusterState)
    (hp : fetchReady project = true)
    (hfmt : selectorFormatOk (buildUserSelector labels) = true) :
    list_sessions_by_user_labels env project labels st =
      (.ok { sessions := st.sessions.filter (matchesSelector (buildUserSelector labels)),
             total := (st.sessions.filter (matchesSelector (buildUserSelector labels))).length,
             filtersApplied := [] },
       { st with trace := st.trace ++
           [OcCall.list "agenticsession" project (some (buildUserSelector labels))] }) := by
  have hvp := validateInput_ok_of_valid "namespace" (validName_of_fetchReady hp)
  have hne : (buildUserSelector labels).isEmpty = false := by
    unfold selectorFormatOk at hfmt
    rcases Bool.and_eq_true _ _ |>.mp hfmt with ⟨h1, _⟩
    simpa using h1
  have hall : (buildUserSelector labels).data.all selectorChar = true := by
    unfold selectorFormatOk at hfmt
    exact (Bool.and_eq_true _ _ |>.mp hfmt).2
  have hargs : checkArgs ["get", "agenticsession", "-n", project, "-o", "json", "-l",
      buildUserSelector labels] = .ok () := by
    unfold checkArgs
    have hfind : List.find? argSuspicious ["get", "agenticsession", "-n", project, "-o", "json",
        "-l", buildUserSelector labels] = none := by
      rw [List.find?_eq_none]
      intro a ha
      simp only [List.mem_cons, List.not_mem_nil, or_false] at ha
      rcases ha with rfl | rfl | rfl | rfl | rfl | rfl | rfl | rfl
      · decide
      · decide
      · decide
      · simp [argSuspicious_of_fetchReady hp]
      · decide
      · decide
      · decide
      · simp [not_argSuspicious_of_selector hall]
    rw [hfind]
  unfold list_sessions_by_user_labels list_sessions listResourcesJson
  simp only [show ALLOWED_RESOURCE_TYPES.contains "agenticsession" = true from by decide,
    show truthyStr (some (buildUserSelector labels)) = some (buildUserSelector labels) from by
      simp [truthyStr, hne],
    hvp, hfmt, hargs, Bool.not_true, Bool.false_eq_true, if_false]
  rw [processSessions_trivial]

/-- C7: when a bulk delete/stop/restart addressed by a label selector
resolves (via one list call) to more than `MAX_BULK_ITEMS` sessions, the
call raises the over-cap error — which names the match count and the cap
and suggests refining the labels — and performs no per-target mutation:
the cluster contents are unchanged and the only new call in the trace is
the read-only list call. -/
theorem bulk_by_label_cap (env : Env) (project : String) (labels : List (String × String))
    (dry_run : Bool) (st : ClusterState)
    (hp : fetchReady project = true)
    (hfmt : selectorFormatOk (buildUserSelector labels) = true)
    (hcount : (st.sessions.filter (matchesSelector (buildUserSelector labels))).length >
      MAX_BULK_ITEMS) :
    bulk_delete_sessions_by_label env project labels dry_run st =
      (.error (overCapMsg
        (st.sessions.filter (matchesSelector (buildUserSelector labels))).length),
       { st with trace := st.trace ++
           [OcCall.list "agenticsession" project (some (buildUserSelector labels))] }) ∧
    bulk_stop_sessions_by_label env project labels dry_run st =
      (.error (overCapMsg
        (st.sessions.filter (matchesSelector (buildUserSelector labels))).length),
       { st with trace := st.trace ++
           [OcCall.list "agenticsession" project (some (buildUserSelector labels))] }) ∧
    bulk_restart_sessions_by_label env project labels dry_run st =
      (.error (overCapMsg
        (st.sessions.filter (matchesSelector (buildUserSelector labels))).length),
       { st with trace := st.trace ++
           [OcCall.list "agenticsession" project (some (buildUserSelector labels))] }) ∧
    (OcCall.list "agenticsession" project (some (buildUserSelector labels))).isMutating = false ∧
    (∃ a b, overCapMsg (st.sessions.filter (matchesSelector (buildUserSelector labels))).length =
      a ++ toString (st.sessions.filter (matchesSelector (buildUserSelector labels))).length ++ b) ∧
    (∃ a b, overCapMsg (st.sessions.filter (matchesSelector (buildUserSelector labels))).length =
      a ++ toString MAX_BULK_ITEMS ++ b) ∧
    (∃ a b, overCapMsg (st.sessions.filter (matchesSelector (buildUserSelector labels))).length =
      a ++ "Refine your labels to be more specific." ++ b) := by
  have hres := listSessions_by_label_resolves env project labels st hp hfmt
  have hnil : (st.sessions.filter (matchesSelector (buildUserSelector labels))).isEmpty
      = false := by
    cases hmt : st.sessions.filter (matchesSelector (buildUserSelector labels)) with
    | nil => rw [hmt] at hcount; simp [MAX_BULK_ITEMS] at hcount
    | cons a l => simp
  have hmlen : ((st.sessions.filter (matchesSelector (buildUserSelector labels))).map
      (fun s => s.name)).length >
      MAX_BULK_ITEMS := by
    rw [List.length_map]
    exact hcount
  refine ⟨?_, ?_, ?_,
    rfl,
    ⟨"Label selector matches ",
     " sessions. Max " ++ toString MAX_BULK_ITEMS ++
       " allowed. Refine your labels to be more specific.",
     by simp [overCapMsg, String.append_assoc]⟩,
    ⟨"Label selector matches " ++
       toString (st.sessions.filter (matchesSelector (buildUserSelector labels))).length ++
       " sessions. Max ",
     " allowed. Refine your labels to be more specific.",
     by simp [overCapMsg, String.append_assoc]⟩,
    ⟨"Label selector matches " ++
       toString (st.sessions.filter (matchesSelector (buildUserSelector labels))).length ++
       " sessions. Max " ++ toString MAX_BULK_ITEMS ++ " allowed. ",
     "", by simp [overCapMsg, String.append_assoc]⟩⟩
  · unfold bulk_delete_sessions_by_label
    rw [hres]
    simp only [hnil, Bool.false_eq_true, if_false]
    rw [if_pos hmlen, List.length_map]
  · unfold bulk_stop_sessions_by_label
    rw [hres]
    simp only [hnil, Bool.false_eq_true, if_false]
    rw [if_pos hmlen, List.length_map]
  · unfold bulk_restart_sessions_by_label
    rw [hres]
    simp only [hnil, Bool.false_eq_true, if_false]
    rw [if_pos hmlen, List.length_map]

def sessP1 : Session := { name := "p-one", labels := [(LABEL_PREFIX ++ "env", "prod")] }

def sessP2 : Session := { name := "p-two", labels := [(LABEL_PREFIX ++ "env", "prod")] }

def sessP3 : Session := { name := "p-three", labels := [(LABEL_PREFIX ++ "env", "prod")] }

def sessP4 : Session := { name := "p-four", labels := [(LABEL_PREFIX ++ "env", "prod")] }

def stC7 : ClusterState := { sessions := [sessP1, sessP2, sessP3, sessP4], trace := [] }

/-- Witness for C7: the selector `env=prod` matches four sessions — over
the cap of three — so the bulk delete raises the over-cap error after the
single read-only list call. -/
theorem bulk_by_label_cap_witness :
    bulk_delete_sessions_by_label envW "proj-a" [("env", "prod")] false stC7 =
      (.error (overCapMsg 4),
       { sessions := stC7.sessions,
         trace := stC7.trace ++ [OcCall.list "agenticsession" "proj-a"
           (some (buildUserSelector [("env", "prod")]))] }) := by
  have h := bulk_by_label_cap envW "proj-a" [("env", "prod")] false stC7
    (by decide) (by decide) (by decide)
  have hlen4 : (stC7.sessions.filter
      (matchesSelector (buildUserSelector [("env", "prod")]))).length = 4 := by decide
  rw [hlen4] at h
  exact h.1

end McpAcp
